import Mathlib

/-!
Verification of the thaistock-app signal-scoring, target-calculation and
scanning engine against its natural-language specification.

The Python source (modules/indicators.py, modules/signals.py,
modules/scanner.py, modules/candle_analysis.py) is shallowly embedded here:

* prices and indicator values are modelled as rationals (ℚ); the source uses
  IEEE floats, and every concrete input used below is chosen so that no
  float-rounding tie is hit;
* a pandas frame becomes a `List Row`; an indicator column that may be
  missing is an `Option ℚ` field (`none` = column absent / NaN after the
  warm-up trim); the idiom `row.get(col, d) or d`, which substitutes the
  default both for a missing value and for a falsy `0.0`, becomes `getOr`;
* Python `round(x, d)` (round-half-to-even) becomes `pyRound d`;
  Python `int(x)` (truncation toward zero) becomes `pyTrunc`;
* code that would propagate NaN (e.g. a 60-bar rolling window on a shorter
  frame) is modelled as an `Option` result, `none` on the NaN path.
-/

namespace ThaiStock

/- Batteries marks the arithmetic on `Rat` `@[irreducible]`, which blocks
`decide`-style evaluation of the embedded functions on concrete frames;
restore the default reducibility for this file. -/
attribute [local semireducible] Rat.add Rat.mul Rat.sub Rat.inv Rat.ofScientific

/-- Python `round(x)` on an exact rational: round half to even. -/
def roundHalfEven (x : ℚ) : ℤ :=
  if x - (⌊x⌋ : ℚ) < 1/2 then ⌊x⌋
  else if 1/2 < x - (⌊x⌋ : ℚ) then ⌊x⌋ + 1
  else if ⌊x⌋ % 2 = 0 then ⌊x⌋ else ⌊x⌋ + 1

/-- Python `round(x, d)`: round to `d` decimal places, half to even. -/
def pyRound (d : ℕ) (x : ℚ) : ℚ :=
  (roundHalfEven (x * 10 ^ d) : ℚ) / 10 ^ d

/-- Python `int(x)`: truncation toward zero. -/
def pyTrunc (x : ℚ) : ℤ :=
  if 0 ≤ x then ⌊x⌋ else ⌈x⌉

/-- Python `series.get(col, d) or d`: the default is used both when the
column is missing and when the stored value is falsy (`0.0`). -/
def getOr (v : Option ℚ) (d : ℚ) : ℚ :=
  match v with
  | none => d
  | some x => if x = 0 then d else x

/-- One row of an indicator frame: the OHLCV columns are always present,
derived indicator columns may be absent (`none`). -/
structure Row where
  open' : ℚ := 0
  high : ℚ := 0
  low : ℚ := 0
  close : ℚ := 0
  volume : ℚ := 0
  ema9 : Option ℚ := none
  ema21 : Option ℚ := none
  ema50 : Option ℚ := none
  ema200 : Option ℚ := none
  rsi : Option ℚ := none
  macd : Option ℚ := none
  macdSignal : Option ℚ := none
  macdHist : Option ℚ := none
  stochK : Option ℚ := none
  stochD : Option ℚ := none
  volRatio : Option ℚ := none
  obv : Option ℚ := none
  bbLower : Option ℚ := none
  bbUpper : Option ℚ := none
  atr : Option ℚ := none
  adx : Option ℚ := none
  diPlus : Option ℚ := none
  diMinus : Option ℚ := none
  deriving DecidableEq, Repr, Inhabited

/-- `df.iloc[-1]` on a nonempty frame (callers guard emptiness as the code
does). -/
def lastRow (df : List Row) : Row :=
  (df.getLast?).getD default

/-- `df.iloc[k]` for `k` counted from the end: `ilocNeg df 1 = df.iloc[-1]`. -/
def ilocNeg (df : List Row) (k : ℕ) : Row :=
  df.getD (df.length - k) default

/-- A discrete signal as appended by the scorer; the fixed Thai rationale
string carried by the source is omitted (no verified property reads it),
only the `type`/`strength` fields consumed downstream are kept. -/
structure Signal where
  stype : String
  strength : String
  deriving DecidableEq, Repr

/-- `get_market_regime` (modules/signals.py, lines 8-29).  The bare
`except` can only fire on an empty frame (`df.iloc[-1]`), which is the
`none` branch here. -/
def getMarketRegime (df : List Row) : String :=
  match df.getLast? with
  | none => "SIDEWAYS"
  | some last =>
    let adx := getOr last.adx 0
    let price := last.close
    let ema200 := getOr last.ema200 price
    let diPlus := getOr last.diPlus 0
    let diMinus := getOr last.diMinus 0
    if 25 < adx then
      if ema200 < price ∧ diMinus < diPlus then "BULL_TREND"
      else if price < ema200 ∧ diPlus < diMinus then "BEAR_TREND"
      else "TRANSITION"
    else "SIDEWAYS"

/-- A pattern from the lightweight detector in modules/indicators.py
(`detect_candlestick_patterns`); the Thai description is omitted. -/
structure SimplePattern where
  pattern : String
  ptype : String
  deriving DecidableEq, Repr

/-- `detect_candlestick_patterns` (modules/indicators.py, lines 150-193). -/
def detectCandlestickPatterns (df : List Row) : List SimplePattern :=
  if df.length < 3 then []
  else
    let c1 := ilocNeg df 3
    let c2 := ilocNeg df 2
    let c3 := ilocNeg df 1
    let body := fun (c : Row) => |c.close - c.open'|
    let upperWick := fun (c : Row) => c.high - max c.close c.open'
    let lowerWick := fun (c : Row) => min c.close c.open' - c.low
    let fullRange := fun (c : Row) => max (c.high - c.low) (1/1000000000)
    let isBull := fun (c : Row) => c.open' < c.close
    let isBear := fun (c : Row) => c.close < c.open'
    (if lowerWick c3 > body c3 * 2 ∧ upperWick c3 < body c3 * (1/2) ∧ isBear c2 then
      [⟨"Hammer", "BUY"⟩] else []) ++
    (if upperWick c3 > body c3 * 2 ∧ lowerWick c3 < body c3 * (1/2) ∧ isBull c2 then
      [⟨"Shooting Star", "SELL"⟩] else []) ++
    (if isBear c2 ∧ isBull c3 ∧ c3.open' < c2.close ∧ c2.open' < c3.close then
      [⟨"Bullish Engulfing", "BUY"⟩] else []) ++
    (if isBull c2 ∧ isBear c3 ∧ c2.close < c3.open' ∧ c3.close < c2.open' then
      [⟨"Bearish Engulfing", "SELL"⟩] else []) ++
    (if isBear c1 ∧ body c2 < body c1 * (3/10) ∧ isBull c3 ∧
        (c1.open' + c1.close) / 2 < c3.close then
      [⟨"Morning Star", "BUY"⟩] else []) ++
    (if isBull c1 ∧ body c2 < body c1 * (3/10) ∧ isBear c3 ∧
        c3.close < (c1.open' + c1.close) / 2 then
      [⟨"Evening Star", "SELL"⟩] else []) ++
    (if body c3 < fullRange c3 * (1/10) then
      [⟨"Doji", "NEUTRAL"⟩] else [])

/-- Trend-block score delta and signals of `calculate_signal_score`
(EMA alignment, lines 50-82). -/
def emaAlignBlock (last : Row) : ℤ × List Signal :=
  let ema9 := (last.ema9).getD 0
  let ema21 := (last.ema21).getD 0
  let ema50 := (last.ema50).getD 0
  let ema200 := (last.ema200).getD 0
  let close := last.close
  if ema200 < ema50 ∧ ema50 < ema21 ∧ ema21 < ema9 ∧ ema9 < close then
    (15, [⟨"BUY", "STRONG"⟩])
  else if ema9 < ema21 ∧ ema21 < ema50 ∧ ema50 < ema200 ∧ close < ema9 then
    (-15, [⟨"SELL", "STRONG"⟩])
  else if ema50 < close then (7, [⟨"BUY", "MEDIUM"⟩])
  else if close < ema50 then (-7, [⟨"SELL", "MEDIUM"⟩])
  else (0, [])

/-- Golden/Death-cross block (lines 85-104). -/
def crossBlock (last prev : Row) : ℤ × List Signal :=
  let pe9 := (prev.ema9).getD 0
  let pe21 := (prev.ema21).getD 0
  let e9 := (last.ema9).getD 0
  let e21 := (last.ema21).getD 0
  if pe9 < pe21 ∧ e21 < e9 then (12, [⟨"BUY", "STRONG"⟩])
  else if pe21 < pe9 ∧ e9 < e21 then (-12, [⟨"SELL", "STRONG"⟩])
  else (0, [])

/-- Price-vs-EMA200 block (lines 107-124). -/
def ema200Block (last : Row) : ℤ × List Signal :=
  let ema200 := getOr last.ema200 last.close
  if 0 < ema200 then
    let diffPct := (last.close - ema200) / ema200 * 100
    if 5 < diffPct then (8, [⟨"BUY", "MEDIUM"⟩])
    else if diffPct < -5 then (-8, [⟨"SELL", "MEDIUM"⟩])
    else (0, [])
  else (0, [])

/-- RSI block (lines 129-149). -/
def rsiBlock (last : Row) : ℤ × List Signal :=
  let rsi := getOr last.rsi 50
  if rsi < 30 then (12, [⟨"BUY", "STRONG"⟩])
  else if 70 < rsi then (-12, [⟨"SELL", "STRONG"⟩])
  else if 40 ≤ rsi ∧ rsi ≤ 60 then (0, [⟨"NEUTRAL", "WEAK"⟩])
  else (0, [])

/-- MACD-crossover block (lines 152-183). -/
def macdBlock (last prev : Row) : ℤ × List Signal :=
  let macd := (last.macd).getD 0
  let macdSig := (last.macdSignal).getD 0
  let pMacd := (prev.macd).getD 0
  let pSig := (prev.macdSignal).getD 0
  if pMacd < pSig ∧ macdSig < macd then (10, [⟨"BUY", "STRONG"⟩])
  else if pSig < pMacd ∧ macd < macdSig then (-10, [⟨"SELL", "STRONG"⟩])
  else if macdSig < macd ∧ 0 < macd then (5, [⟨"BUY", "WEAK"⟩])
  else if macd < macdSig ∧ macd < 0 then (-5, [⟨"SELL", "WEAK"⟩])
  else (0, [])

/-- StochRSI block (lines 186-205). -/
def stochBlock (last prev : Row) : ℤ × List Signal :=
  let k := getOr last.stochK 50
  let d := getOr last.stochD 50
  let pk := getOr prev.stochK 50
  let pd := getOr prev.stochD 50
  if pk < pd ∧ d < k ∧ k < 30 then (8, [⟨"BUY", "MEDIUM"⟩])
  else if pd < pk ∧ k < d ∧ 70 < k then (-8, [⟨"SELL", "MEDIUM"⟩])
  else (0, [])

/-- Volume / OBV block (lines 209-246).  `df['OBV'].iloc[-10]` is read
raw; a missing OBV value there is modelled as the `obv_now` fallback the
source takes when the frame is shorter than 10 bars (in the source a
wholly missing OBV column instead aborts the block with zero
contribution, which gives the same score delta of 0 in that case only
when the other volume tests also fail; no verified property depends on
the signal list of this block). -/
def volumeBlock (df : List Row) (last prev : Row) : ℤ × List Signal :=
  let volRatio := getOr last.volRatio 1
  let obvNow := (last.obv).getD 0
  let obvPrev := if 10 ≤ df.length then ((ilocNeg df 10).obv).getD obvNow else obvNow
  let part1 : ℤ × List Signal :=
    if 2 < volRatio ∧ prev.close < last.close then (10, [⟨"BUY", "STRONG"⟩])
    else if 2 < volRatio ∧ last.close < prev.close then (-10, [⟨"SELL", "STRONG"⟩])
    else if volRatio < 1/2 then (0, [⟨"NEUTRAL", "WEAK"⟩])
    else (0, [])
  let part2 : ℤ × List Signal :=
    if obvPrev < obvNow ∧ prev.close < last.close then (7, [⟨"BUY", "MEDIUM"⟩])
    else if obvNow < obvPrev ∧ last.close < prev.close then (-7, [⟨"SELL", "MEDIUM"⟩])
    else (0, [])
  (part1.1 + part2.1, part1.2 ++ part2.2)

/-- Bollinger-band block (lines 249-267). -/
def bollingerBlock (last : Row) : ℤ × List Signal :=
  let bbLower := (last.bbLower).getD 0
  let bbUpper := (last.bbUpper).getD 0
  let close := last.close
  if 0 < bbLower ∧ close ≤ bbLower * (101/100) then (5, [⟨"BUY", "MEDIUM"⟩])
  else if 0 < bbUpper ∧ bbUpper * (99/100) ≤ close then (-5, [⟨"SELL", "MEDIUM"⟩])
  else (0, [])

/-- Candlestick-pattern block (lines 270-283): ±5 per BUY/SELL pattern. -/
def patternBlock (df : List Row) : ℤ × List Signal :=
  let pats := detectCandlestickPatterns df
  (pats.foldl (fun acc p =>
      acc + (if p.ptype = "BUY" then 5 else if p.ptype = "SELL" then -5 else 0)) 0,
   pats.map (fun p => ⟨p.ptype, "MEDIUM"⟩))

/-- Total additive rule contribution of `calculate_signal_score` before
the final clamp. -/
def signalDeltaSum (df : List Row) : ℤ :=
  let last := lastRow df
  let prev := ilocNeg df 2
  (emaAlignBlock last).1 + (crossBlock last prev).1 + (ema200Block last).1 +
  (rsiBlock last).1 + (macdBlock last prev).1 + (stochBlock last prev).1 +
  (volumeBlock df last prev).1 + (bollingerBlock last).1 + (patternBlock df).1

/-- `calculate_signal_score` (modules/signals.py, lines 32-288): neutral
start 50, additive rule contributions, clamp to [0, 100]. -/
def calculateSignalScore (df : List Row) : ℤ × List Signal × String :=
  let regime := getMarketRegime df
  if df.length < 5 then (50, [], regime)
  else
    let last := lastRow df
    let prev := ilocNeg df 2
    let score := 50 + signalDeltaSum df
    let signals :=
      (emaAlignBlock last).2 ++ (crossBlock last prev).2 ++ (ema200Block last).2 ++
      (rsiBlock last).2 ++ (macdBlock last prev).2 ++ (stochBlock last prev).2 ++
      (volumeBlock df last prev).2 ++ (bollingerBlock last).2 ++ (patternBlock df).2
    (max 0 (min 100 score), signals, regime)

/-! ### Fibonacci zone scan (scanner.py `_scan_one` lines 79-100,
`_scan_intraday` lines 566-581 — the two loops are character-identical) -/

/-- `fp(r) = base + direction * fib_range * r` (scanner.py line 84 = line
569): base is the swing low and direction +1 in an uptrend, the swing high
and -1 in a downtrend. -/
def fp (isUp : Bool) (lo hi r : ℚ) : ℚ :=
  (cond isUp lo hi) + (cond isUp 1 (-1)) * (hi - lo) * r

/-- The six standard retracement zones, scanned in ascending ratio order
(scanner.py line 91 = line 574). -/
def zonePairs : List (ℚ × ℚ) :=
  [(0, 236/1000), (236/1000, 382/1000), (382/1000, 500/1000),
   (500/1000, 618/1000), (618/1000, 786/1000), (786/1000, 1)]

/-- One zone's membership test, `lo ≤ current ≤ hi` after ordering the two
zone edges (scanner.py lines 92-94). -/
def inZonePair (isUp : Bool) (lo hi c : ℚ) (pr : ℚ × ℚ) : Bool :=
  let p0 := fp isUp lo hi pr.1
  let p1 := fp isUp lo hi pr.2
  decide (min p0 p1 ≤ c) && decide (c ≤ max p0 p1)

/-- The first-match scan loop over the zone list, returning the index of
the first zone containing the price (scanner.py lines 89-100). -/
def zoneIdxGo (isUp : Bool) (lo hi c : ℚ) : List (ℚ × ℚ) → ℕ → Option ℕ
  | [], _ => none
  | pr :: rest, i =>
    if inZonePair isUp lo hi c pr then some i else zoneIdxGo isUp lo hi c rest (i + 1)

def zoneIdx (isUp : Bool) (lo hi c : ℚ) : Option ℕ :=
  zoneIdxGo isUp lo hi c zonePairs 0

/-! ### Scanner fan-out loops (scanner.py `run_fibonacci_scan` lines
230-270, `run_multi_timeframe_scan` lines 273-311) -/

/-- Outcome of one scan task's future: a result row (`ok`), a `None`
result (symbol skipped), or an exception raised out of `future.result`
(timeout / worker error). -/
inductive TaskOutcome (α : Type) where
  | ok (r : α)
  | noResult
  | failed
  deriving DecidableEq, Repr

/-- The completion-processing loop of `run_fibonacci_scan` (lines
248-260) over the completed futures in completion order: the counter is
incremented and the progress callback fires with `(done, total, symbol)`
before the result is read, so it fires once per task regardless of
outcome; a non-`None` result is collected, an exception is swallowed.
Returns the recorded callback invocations and the collected rows. -/
def scanLoop {α : Type} (total : ℕ) :
    List (String × TaskOutcome α) → ℕ → List (ℕ × ℕ × String) × List α
  | [], _ => ([], [])
  | (sym, out) :: rest, done =>
    let d := done + 1
    let next := scanLoop total rest d
    ((d, total, sym) :: next.1,
     match out with
     | .ok r => r :: next.2
     | _ => next.2)

/-- `run_fibonacci_scan`'s loop started with `done = 0` and
`total = len(symbols)` (the same loop shape is used by
`run_daytrade_scan`, lines 714-726). -/
def runScanCallbacks {α : Type} (tasks : List (String × TaskOutcome α)) :
    List (ℕ × ℕ × String) × List α :=
  scanLoop tasks.length tasks 0

/-- The completion loop of `run_multi_timeframe_scan` (lines 297-311):
one task per (symbol, period) pair, callback label `f"{sym} ({p})"`.
Only the callback trace is modelled here; the accumulation of results
into the per-symbol dictionary is modelled by `mergeSymbol` below. -/
def mtfScanLoopGo {α : Type} (total : ℕ) :
    List ((String × String) × TaskOutcome α) → ℕ → List (ℕ × ℕ × String)
  | [], _ => []
  | ((sym, p), _) :: rest, done =>
    (done + 1, total, sym ++ " (" ++ p ++ ")") :: mtfScanLoopGo total rest (done + 1)

def mtfScanCalls {α : Type} (tasks : List ((String × String) × TaskOutcome α)) :
    List (ℕ × ℕ × String) :=
  mtfScanLoopGo tasks.length tasks 0

/-! ### Scanner stop-loss (scanner.py `_scan_one` lines 124-139,
`_scan_intraday` lines 600-608) -/

/-- Swing-mode stop-loss: in an uptrend the lower of (fib 78.6%, price −
1.5·ATR), floored at −15%, then forced below 98% of price; mirrored for a
downtrend (forced above 102%). -/
def swingStopLoss (isUp : Bool) (lo hi current atr : ℚ) : ℚ :=
  cond isUp
    (min (pyRound 2 (max (min (fp true lo hi (786/1000)) (current - atr * (15/10)))
      (current * (85/100)))) (current * (98/100)))
    (max (pyRound 2 (min (max (fp false lo hi (786/1000)) (current + atr * (15/10)))
      (current * (115/100)))) (current * (102/100)))

/-- Intraday stop-loss: 1.0×ATR, floored at −3%, forced below 99% of
price in an uptrend; mirrored above 101% in a downtrend. -/
def intradayStopLoss (isUp : Bool) (current atr : ℚ) : ℚ :=
  cond isUp
    (min (pyRound 2 (max (current - atr * 1) (current * (97/100)))) (current * (99/100)))
    (max (pyRound 2 (min (current + atr * 1) (current * (103/100)))) (current * (101/100)))

/-- The scanner's fallback trend detector (`_scan_one` lines 75-77):
uptrend iff the mean close of the later half is at least the mean close
of the earlier half. -/
def fallbackUptrend (closes : List ℚ) : Bool :=
  let mid := closes.length / 2
  decide ((closes.take mid).sum / ((mid : ℕ) : ℚ) ≤
    (closes.drop mid).sum / ((closes.length - mid : ℕ) : ℚ))

/-! ### Support / resistance (indicators.py `find_support_resistance`
lines 119-145) -/

/-- `np.take(..., mode='clip')` index clamping. -/
def clipIdx (n : ℕ) (i : ℤ) : ℕ :=
  if i < 0 then 0 else if (n : ℤ) ≤ i then n - 1 else i.toNat

/-- `scipy.signal.argrelextrema(closes, comparator, order=order)` with
the default `mode='clip'`: index `i` qualifies iff
`comparator(closes[i], closes[clip(i±s)])` holds for every shift
`1 ≤ s ≤ order`; `cmpLe = true` is `np.less_equal` (local minima),
`false` is `np.greater_equal` (local maxima). -/
def relExtremaIdx (cmpLe : Bool) (closes : List ℚ) (order : ℕ) : List ℕ :=
  (List.range closes.length).filter fun i =>
    ((List.range order).map (· + 1)).all fun (s : ℕ) =>
      let v := closes.getD i 0
      let vp := closes.getD (clipIdx closes.length ((i : ℤ) + (s : ℤ))) 0
      let vm := closes.getD (clipIdx closes.length ((i : ℤ) - (s : ℤ))) 0
      cond cmpLe (decide (v ≤ vp) && decide (v ≤ vm))
        (decide (vp ≤ v) && decide (vm ≤ v))

/-- Stable insertion sort by a rational key, mirroring Python `sorted`
(equal keys keep their original order). -/
def insertKey {α : Type} (k : α → ℚ) (x : α) : List α → List α
  | [] => [x]
  | y :: ys => if k x < k y then x :: y :: ys else y :: insertKey k x ys

def sortByKey {α : Type} (k : α → ℚ) : List α → List α
  | [] => []
  | x :: xs => insertKey k x (sortByKey k xs)

/-- Python `sorted(set(xs))`: the distinct values in ascending order. -/
def sortedSet (xs : List ℚ) : List ℚ :=
  sortByKey id xs.dedup

/-- The inner grouping loop of `cluster_levels` (indicators.py lines
128-139): a level within 1% of the previous member joins the open group,
otherwise the group is flushed as its mean. -/
def clusterGo : List ℚ → ℚ → ℕ → ℚ → List ℚ
  | [], sum, cnt, _ => [sum / cnt]
  | lv :: r, sum, cnt, lastv =>
    if |lv - lastv| / max lastv (1/1000000000) ≤ 1/100 then
      clusterGo r (sum + lv) (cnt + 1) lv
    else (sum / cnt) :: clusterGo r lv 1 lv

def clusterLevels : List ℚ → List ℚ
  | [] => []
  | l :: r => clusterGo r l 1 l

/-- `find_support_resistance` (indicators.py lines 119-145): local
extrema of the close series, clustered, supports filtered to
`s < current*1.02` and resistances to `r > current*0.98`, each sorted by
distance to the current price and truncated to 7. -/
def findSupportResistance (df : List Row) (window : ℕ) : List ℚ × List ℚ :=
  let closes := df.map (·.close)
  let current := closes.getLast?.getD 0
  let minVals := sortedSet ((relExtremaIdx true closes window).map (fun i => closes.getD i 0))
  let maxVals := sortedSet ((relExtremaIdx false closes window).map (fun i => closes.getD i 0))
  let supports := sortByKey (fun x => |x - current|)
    ((clusterLevels minVals).filter (fun s => s < current * (102/100)))
  let resistances := sortByKey (fun x => |x - current|)
    ((clusterLevels maxVals).filter (fun r => current * (98/100) < r))
  (supports.take 7, resistances.take 7)

/-! ### Target calculator (signals.py `calculate_price_targets` lines
291-349) -/

structure Targets where
  buyLow : ℚ
  buyHigh : ℚ
  stopLoss : ℚ
  tp1 : ℚ
  tp2 : ℚ
  tp3 : ℚ
  trailingStop : ℚ
  riskPct : ℚ
  riskReward : ℚ
  fib618 : ℚ
  supports : List ℚ
  resistances : List ℚ
  deriving DecidableEq, Repr

/-- Maximum of a list of rationals (`none` on the empty list). -/
def listMax : List ℚ → Option ℚ
  | [] => none
  | x :: xs =>
    some (match listMax xs with
      | none => x
      | some m => max x m)

/-- Minimum of a list of rationals (`none` on the empty list). -/
def listMin : List ℚ → Option ℚ
  | [] => none
  | x :: xs =>
    some (match listMin xs with
      | none => x
      | some m => min x m)

/-- `series.rolling(w).max().iloc[-1]`: NaN — modelled `none` — when the
frame has fewer than `w` rows, else the max of the last `w` values. -/
def rollingMaxLast (w : ℕ) (xs : List ℚ) : Option ℚ :=
  if xs.length < w then none else listMax (xs.drop (xs.length - w))

def rollingMinLast (w : ℕ) (xs : List ℚ) : Option ℚ :=
  if xs.length < w then none else listMin (xs.drop (xs.length - w))

/-- `calculate_price_targets` (signals.py lines 291-349).  On a frame
shorter than 60 bars the 60-bar rolling high/low are NaN and every output
is NaN; that path is modelled as `none`.  The ATR fallback
`current_price*0.02` fires when the ATR column is missing or NaN
(`none`).  The Fibonacci dict is represented by its only consumed entry,
the rounded 61.8% level. -/
def calculatePriceTargets (df : List Row) (currentPrice : ℚ) : Option Targets :=
  match rollingMaxLast 60 (df.map (·.high)), rollingMinLast 60 (df.map (·.low)) with
  | some periodHigh, some periodLow =>
    let sr := findSupportResistance df 10
    let atr := ((lastRow df).atr).getD (currentPrice * (2/100))
    let fibRange := periodHigh - periodLow
    let fib618 := pyRound 2 (periodLow + fibRange * (618/1000))
    let nearestSup := match sr.1 with
      | [] => currentPrice * (95/100)
      | s :: _ => s
    let buyLow := pyRound 2 (min nearestSup fib618 * (99/100))
    let buyHigh := pyRound 2 (max nearestSup fib618 * (101/100))
    let stopLoss := pyRound 2 (buyLow - atr * (15/10))
    let riskAmount := currentPrice - stopLoss
    let riskPct := if 0 < currentPrice then riskAmount / currentPrice * 100 else 5
    let tp1 := pyRound 2 (currentPrice + riskAmount * 2)
    let tp2 := pyRound 2 (currentPrice + riskAmount * 3)
    let tp3 := match sr.2 with
      | [] => pyRound 2 (currentPrice + riskAmount * 4)
      | r :: _ => pyRound 2 r
    let riskReward := if 0 < tp1 - currentPrice then riskAmount / (tp1 - currentPrice) else 1/2
    some
      { buyLow := buyLow
        buyHigh := buyHigh
        stopLoss := stopLoss
        tp1 := tp1
        tp2 := tp2
        tp3 := tp3
        trailingStop := pyRound 2 (currentPrice - atr * 2)
        riskPct := pyRound 2 |riskPct|
        riskReward := pyRound 3 riskReward
        fib618 := fib618
        supports := sr.1.map (pyRound 2)
        resistances := sr.2.map (pyRound 2) }
  | _, _ => none

/-! ### Recommendation engine (signals.py `generate_recommendation`
lines 484-729) -/

inductive Action where
  | BUY | ACCUMULATE | HOLD | REDUCE | SELL | WAIT
  deriving DecidableEq, Repr

inductive Confidence where
  | HIGH | MEDIUM | LOW
  deriving DecidableEq, Repr

/-- A recommendation; the Thai title/summary strings and the
reasons/cautions lists are omitted (no verified property reads them). -/
structure Recommendation where
  action : Action
  confidence : Confidence
  entryZone : Option (ℚ × ℚ)
  stopLoss : Option ℚ
  targets : List ℚ
  score : ℤ
  regime : String
  rsi : ℚ
  timeframe : String
  deriving DecidableEq, Repr

/-- `_neutral_rec` (signals.py lines 720-729); the price argument is
unused by the source as well. -/
def neutralRec (_price : ℚ) (score : ℤ) : Recommendation :=
  { action := .WAIT, confidence := .LOW, entryZone := none, stopLoss := none,
    targets := [], score := score, regime := "UNKNOWN", rsi := 50,
    timeframe := "?" }

/-- The indicator extraction of `generate_recommendation` (lines
516-533), with the `float(last.get(col, d) or d)` coalescing. -/
structure RecInputs where
  close : ℚ
  rsi : ℚ
  macd : ℚ
  macdSig : ℚ
  macdH : ℚ
  ema9 : ℚ
  ema21 : ℚ
  ema50 : ℚ
  ema200 : ℚ
  atr : ℚ
  bbUp : ℚ
  bbLo : ℚ
  volR : ℚ
  adx : ℚ
  diP : ℚ
  diM : ℚ
  prevMacdH : ℚ
  deriving DecidableEq, Repr

def recInputs (last prev : Row) : RecInputs :=
  let close := last.close
  { close := close
    rsi := getOr last.rsi 50
    macd := getOr last.macd 0
    macdSig := getOr last.macdSignal 0
    macdH := getOr last.macdHist 0
    ema9 := getOr last.ema9 close
    ema21 := getOr last.ema21 close
    ema50 := getOr last.ema50 close
    ema200 := getOr last.ema200 close
    atr := getOr last.atr (close * (2/100))
    bbUp := getOr last.bbUpper (close * (102/100))
    bbLo := getOr last.bbLower (close * (98/100))
    volR := getOr last.volRatio 1
    adx := getOr last.adx 0
    diP := getOr last.diPlus 0
    diM := getOr last.diMinus 0
    prevMacdH := getOr prev.macdHist 0 }

/-- Key conditions (lines 541-554). -/
def isUptrendCond (v : RecInputs) : Prop := v.ema50 < v.close ∧ 0 < v.ema50

def aboveEma200 (v : RecInputs) : Prop :=
  if 0 < v.ema200 then v.ema200 < v.close else True

def emaAlignedUp (v : RecInputs) : Prop := v.ema21 < v.ema9 ∧ v.ema50 < v.ema21

def emaAlignedDn (v : RecInputs) : Prop := v.ema9 < v.ema21 ∧ v.ema21 < v.ema50

def macdBullishCond (v : RecInputs) : Prop := v.macdSig < v.macd ∧ 0 < v.macdH

def rsiOverbought (v : RecInputs) : Prop := 70 < v.rsi

def rsiOversold (v : RecInputs) : Prop := v.rsi < 35

def nearBBLower (v : RecInputs) : Prop := v.close ≤ v.bbLo * (102/100)

def nearBBUpper (v : RecInputs) : Prop := v.bbUp * (98/100) ≤ v.close

/-- Signal counts (lines 536-539). -/
def sellStrongCount (signals : List Signal) : ℕ :=
  (signals.filter (fun s => decide (s.stype = "SELL" ∧ s.strength = "STRONG"))).length

def sellMediumCount (signals : List Signal) : ℕ :=
  (signals.filter (fun s => decide (s.stype = "SELL" ∧ s.strength = "MEDIUM"))).length

/-- Branch guards of the decision table (lines 561, 579, 598, 612, 629),
in source order. -/
def buyCond (v : RecInputs) (score : ℤ) : Prop :=
  72 ≤ score ∧ emaAlignedUp v ∧ macdBullishCond v ∧ aboveEma200 v ∧ ¬rsiOverbought v

def accumulateCond (v : RecInputs) (score : ℤ) (signals : List Signal) : Prop :=
  60 ≤ score ∧ (isUptrendCond v ∨ rsiOversold v ∨ nearBBLower v) ∧
  sellStrongCount signals = 0

def holdCond (v : RecInputs) (score : ℤ) : Prop :=
  45 ≤ score ∧ score < 60 ∧ ¬rsiOverbought v ∧ ¬emaAlignedDn v

def reduceCond (v : RecInputs) (score : ℤ) (signals : List Signal) : Prop :=
  40 ≤ score ∧ score < 55 ∧ (rsiOverbought v ∨ nearBBUpper v ∨ emaAlignedDn v) ∧
  1 ≤ sellMediumCount signals

def sellCond (v : RecInputs) (score : ℤ) (signals : List Signal)
    (regime : String) : Prop :=
  score < 40 ∧ 1 ≤ sellStrongCount signals ∧
  (emaAlignedDn v ∨ (¬aboveEma200 v ∧ regime = "BEAR_TREND"))

instance (v : RecInputs) : Decidable (aboveEma200 v) := by
  unfold aboveEma200; infer_instance

instance (v : RecInputs) (score : ℤ) : Decidable (buyCond v score) := by
  unfold buyCond emaAlignedUp macdBullishCond rsiOverbought; infer_instance

instance (v : RecInputs) (score : ℤ) (signals : List Signal) :
    Decidable (accumulateCond v score signals) := by
  unfold accumulateCond isUptrendCond rsiOversold nearBBLower; infer_instance

instance (v : RecInputs) (score : ℤ) : Decidable (holdCond v score) := by
  unfold holdCond rsiOverbought emaAlignedDn; infer_instance

instance (v : RecInputs) (score : ℤ) (signals : List Signal) :
    Decidable (reduceCond v score signals) := by
  unfold reduceCond rsiOverbought nearBBUpper emaAlignedDn; infer_instance

instance (v : RecInputs) (score : ℤ) (signals : List Signal) (regime : String) :
    Decidable (sellCond v score signals regime) := by
  unfold sellCond emaAlignedDn; infer_instance

/-- The decision table itself (lines 560-656): evaluated top-to-bottom,
first matching branch wins, WAIT is the fallback. -/
def actionConfidence (v : RecInputs) (score : ℤ) (signals : List Signal)
    (regime : String) : Action × Confidence :=
  if buyCond v score then (.BUY, if 80 ≤ score then .HIGH else .MEDIUM)
  else if accumulateCond v score signals then (.ACCUMULATE, .MEDIUM)
  else if holdCond v score then (.HOLD, .LOW)
  else if reduceCond v score signals then (.REDUCE, .MEDIUM)
  else if sellCond v score signals regime then
    (.SELL, if score < 30 then .HIGH else .MEDIUM)
  else (.WAIT, .LOW)

/-- Entry/SL/TP assembly (lines 668-689) and the returned record. -/
def recommendationFromInputs (v : RecInputs) (score : ℤ) (signals : List Signal)
    (regime : String) (timeframe : String) : Recommendation :=
  { action := (actionConfidence v score signals regime).1
    confidence := (actionConfidence v score signals regime).2
    entryZone :=
      if (actionConfidence v score signals regime).1 = .BUY ∨
          (actionConfidence v score signals regime).1 = .ACCUMULATE then
        some (pyRound 2 (v.close * (99/100)), pyRound 2 (v.close * (1005/1000)))
      else none
    stopLoss :=
      if (actionConfidence v score signals regime).1 = .BUY ∨
          (actionConfidence v score signals regime).1 = .ACCUMULATE then
        some (pyRound 2 (v.close - v.atr * 2))
      else if (actionConfidence v score signals regime).1 = .REDUCE ∨
          (actionConfidence v score signals regime).1 = .SELL then
        some (pyRound 2 (v.close + v.atr * (15/10)))
      else none
    targets :=
      if (actionConfidence v score signals regime).1 = .BUY ∨
          (actionConfidence v score signals regime).1 = .ACCUMULATE then
        [pyRound 2 (v.close + v.atr * (25/10)), pyRound 2 (v.close + v.atr * 4)]
      else []
    score := score
    regime := regime
    rsi := pyRound 1 v.rsi
    timeframe := timeframe }

/-- `generate_recommendation` (signals.py lines 484-717). -/
def generateRecommendation (df : List Row) (score : ℤ) (signals : List Signal)
    (regime : String) (currentPrice : ℚ) (timeframe : String) : Recommendation :=
  if df.length < 5 then neutralRec currentPrice score
  else
    recommendationFromInputs
      (recInputs (lastRow df) (if 2 ≤ df.length then ilocNeg df 2 else lastRow df))
      score signals regime timeframe

/-! ### Concrete frames used by counterexamples and witnesses -/

/-- A degenerate but valid bar (open = high = low = close, as in very
thinly traded sessions). -/
def mkBar (c : ℚ) : Row :=
  { open' := c, high := c, low := c, close := c, volume := 1 }

/-- A 30-bar monotone ramp 1, 2, …, 30. -/
def rampDf : List Row :=
  (List.range 30).map (fun i => mkBar ((i : ℚ) + 1))

/-- Close series of the 60-bar stop-loss counterexample frame: a low
first half (uptrend by the halves test), a rally to 150 with a pullback
to a local minimum at 101.8, a second rally, and a fade to 100.  Its
local close minima are exactly {55, 97, 101.8}. -/
def cexCloses : List ℚ :=
  [55, 56, 57, 58, 59, 60, 61, 62, 63, 64,
   65, 66, 67, 68, 69, 70, 71, 72, 73, 74,
   75, 76, 77, 78, 79, 80, 81, 82, 83, 84,
   140, 145, 150,
   148, 146, 144, 142, 140, 135, 130, 120, 110, 105,
   509/5,
   106, 111, 116, 121, 126, 131, 136, 141, 146, 148,
   130, 120, 110, 103, 97, 100]

/-- The counterexample frame: 60 degenerate bars over `cexCloses`, the
last bar carrying ATR = 0.1.  Current price = last close = 100. -/
def cexDf : List Row :=
  (cexCloses.dropLast.map mkBar) ++ [{ mkBar 100 with atr := some (1/10) }]

/-! ### Multi-timeframe merge (scanner.py `run_multi_timeframe_scan`
lines 316-386) -/

/-- `charsStartWith needle hay`: `hay` begins with `needle`. -/
def charsStartWith : List Char → List Char → Bool
  | [], _ => true
  | _ :: _, [] => false
  | a :: as, b :: bs => a == b && charsStartWith as bs

/-- `charsContain needle hay`: `needle` occurs contiguously in `hay`. -/
def charsContain (needle : List Char) : List Char → Bool
  | [] => needle.isEmpty
  | b :: bs => charsStartWith needle (b :: bs) || charsContain needle bs

/-- Python `needle in haystack` on strings. -/
def strContains (hay needle : String) : Bool :=
  charsContain needle.toList hay.toList

/-- The per-period fields of a scan row that the merge reads;
`primary.copy()` carries the whole row, of which these are the consumed
columns. -/
structure SRow where
  fibScore : ℚ
  signalScore : ℤ
  riskReward : ℚ
  zone : String
  deriving DecidableEq, Repr

/-- The substring test `'38' in z or '50' in z or '61' in z or '🌟' in z`
(scanner.py lines 340-343) used for the confluence bonus; note it also
matches the non-golden zone labels "23.6–38.2%" and "61.8–78.6%". -/
def isGoldenLabel (z : String) : Bool :=
  strContains z "38" || strContains z "50" || strContains z "61" || strContains z "🌟"

/-- Golden-zone membership as the specification reads it: the label
carries the star that `_scan_one` attaches to the 38.2–50.0% and
50.0–61.8% zones only. -/
def isStarZone (z : String) : Bool :=
  strContains z "🌟"

/-- The confluence label (scanner.py lines 351-355). -/
def confluenceLabel (passed : ℕ) : String :=
  if passed = 3 then "🟢🟢🟢 ทั้ง 3 Timeframe"
  else if passed = 2 then "🟢🟢⚪ 2 จาก 3 Timeframe"
  else if passed = 1 then "🟢⚪⚪ 1 Timeframe"
  else "⚪⚪⚪ ไม่ผ่าน"

/-- The mtf re-grade (scanner.py lines 371-375). -/
def mtfGrade (mtf : ℚ) : String :=
  if 80 ≤ mtf then "A+" else if 70 ≤ mtf then "A"
  else if 58 ≤ mtf then "B+" else if 45 ≤ mtf then "B" else "C"

structure MergedRow where
  primary : SRow
  mtfScore : ℚ
  confluence : String
  passedTfs : ℕ
  nPeriods : ℕ
  grade : String
  deriving DecidableEq, Repr

/-- The merge body for one symbol (scanner.py lines 320-377): `prs` is
the period → result mapping in insertion order, `minFibScore` the user
threshold; `none` when every period fetch failed (the symbol is dropped). -/
def mergeSymbol (minFibScore : ℚ) (prs : List (String × SRow)) : Option MergedRow :=
  match prs with
  | [] => none
  | p0 :: _ =>
    some
      { primary := (prs.lookup "6mo").getD p0.2
        mtfScore := min 100 (pyRound 1
          ((prs.map (fun pr => pr.2.fibScore)).sum / (prs.length : ℚ) +
            (if 3 ≤ prs.length ∧ prs.all (fun pr => isGoldenLabel pr.2.zone) = true then (15:ℚ)
             else if 2 ≤ prs.length ∧ prs.all (fun pr => isGoldenLabel pr.2.zone) = true then 10
             else if 2 ≤ prs.length then 5 else 0)))
        confluence := confluenceLabel
          (((prs.map (fun pr => pr.2.fibScore)).filter
            (fun s => decide (minFibScore ≤ s))).length)
        passedTfs := ((prs.map (fun pr => pr.2.fibScore)).filter
          (fun s => decide (minFibScore ≤ s))).length
        nPeriods := prs.length
        grade := mtfGrade (min 100 (pyRound 1
          ((prs.map (fun pr => pr.2.fibScore)).sum / (prs.length : ℚ) +
            (if 3 ≤ prs.length ∧ prs.all (fun pr => isGoldenLabel pr.2.zone) = true then (15:ℚ)
             else if 2 ≤ prs.length ∧ prs.all (fun pr => isGoldenLabel pr.2.zone) = true then 10
             else if 2 ≤ prs.length then 5 else 0)))) }

/-- The C6 counterexample input: all three periods in zone 23.6–38.2%
(not the golden zone) with per-period fib score 92. -/
def cex6 : List (String × SRow) :=
  [("3mo", { fibScore := 92, signalScore := 50, riskReward := 2, zone := "23.6–38.2%" }),
   ("6mo", { fibScore := 92, signalScore := 50, riskReward := 2, zone := "23.6–38.2%" }),
   ("1y",  { fibScore := 92, signalScore := 50, riskReward := 2, zone := "23.6–38.2%" })]

/-! ### Bell curve / mean reversion (candle_analysis.py
`analyze_bell_curve` lines 363-472) -/

/-- The trailing `min(window, len)` closes (`closes.iloc[-n:]`). -/
def bellRecent (df : List Row) (window : ℕ) : List ℚ :=
  (df.map (fun r => r.close)).drop (df.length - min window df.length)

def bellCurrent (df : List Row) (window : ℕ) : ℚ :=
  (bellRecent df window).getLast?.getD 0

def bellMean (df : List Row) (window : ℕ) : ℚ :=
  (bellRecent df window).sum / ((bellRecent df window).length : ℚ)

/-- Sample variance (the square of pandas `std()`, `ddof=1`) of the
trailing window. -/
def bellVariance (df : List Row) (window : ℕ) : ℚ :=
  ((bellRecent df window).map (fun x => (x - bellMean df window) ^ 2)).sum /
    (((bellRecent df window).length : ℚ) - 1)

/-- The z-score numerator: `z = (current - mean) / std`, kept unscaled
because `std = √variance` is irrational in general; every `|z| > a`
comparison of the source is equivalently `zNum² > a²·variance`. -/
def bellZNum (df : List Row) (window : ℕ) : ℚ :=
  bellCurrent df window - bellMean df window

/-- The result of `analyze_bell_curve`; the percentile,
return-distribution and Bollinger-position context fields and the chart
series are omitted (no verified property reads them). -/
structure BellStats where
  current : ℚ
  mean : ℚ
  variance : ℚ
  zNum : ℚ
  regime : String
  regimeTh : String
  revProb : ℚ
  reversionProbPct : ℚ
  windowUsed : ℕ
  deriving DecidableEq, Repr

def mkBellStats (df : List Row) (window : ℕ) (regime regimeTh : String)
    (prob : ℚ) : BellStats :=
  { current := bellCurrent df window, mean := bellMean df window,
    variance := bellVariance df window, zNum := bellZNum df window,
    regime := regime, regimeTh := regimeTh, revProb := prob,
    reversionProbPct := pyRound 1 (prob * 100),
    windowUsed := (bellRecent df window).length }

/-- `analyze_bell_curve` (candle_analysis.py lines 363-472): empty on a
frame of fewer than 20 bars or a zero-variance trailing window, else the
fixed |z| lookup table.  (A one-bar window, excluded by the default
`window = 60` and every caller, would give a NaN std in the source; the
embedding folds that path into the zero-variance guard.) -/
def analyzeBellCurve (df : List Row) (window : ℕ) : Option BellStats :=
  if df.length < 20 then none
  else if bellVariance df window = 0 then none
  else if bellZNum df window ^ 2 > (25/4) * bellVariance df window then
    some (mkBellStats df window "STRETCHED_EXTREME" "ยืดตัวมาก (Extreme)" (85/100))
  else if bellZNum df window ^ 2 > 4 * bellVariance df window then
    some (mkBellStats df window "STRETCHED_HIGH" "ยืดตัวสูง" (75/100))
  else if bellZNum df window ^ 2 > (9/4) * bellVariance df window then
    some (mkBellStats df window "STRETCHED" "ยืดตัว" (62/100))
  else if bellZNum df window ^ 2 > 1 * bellVariance df window then
    some (mkBellStats df window "NORMAL" "ปกติ" (48/100))
  else some (mkBellStats df window "COMPRESSED" "หดตัว (Coiling)" (35/100))

/-- A 21-bar constant-close frame (zero variance). -/
def bcConstDf : List Row :=
  List.replicate 21 (mkBar 5)

/-- Five-bar frame whose last bar triggers the BUY branch of the
recommendation decision table. -/
def recWitDf : List Row :=
  [mkBar 10, mkBar 11, mkBar 12, mkBar 13,
   { mkBar 20 with
      ema9 := some 12
      ema21 := some 11
      ema50 := some 10
      ema200 := some 9
      macd := some 2
      macdSignal := some 1
      macdHist := some 1
      rsi := some 50 }]

/-! ### Full candlestick pattern detector (candle_analysis.py
`detect_patterns_full` lines 44-356) -/

/-- Candle geometry helpers (candle_analysis.py lines 21-41). -/
def cBody (c : Row) : ℚ := |c.close - c.open'|

def cUpperWick (c : Row) : ℚ := c.high - max c.close c.open'

def cLowerWick (c : Row) : ℚ := min c.close c.open' - c.low

def cRange (c : Row) : ℚ := max (c.high - c.low) (1/1000000000)

def cIsBull (c : Row) : Prop := c.open' < c.close

def cIsBear (c : Row) : Prop := c.close < c.open'

instance (c : Row) : Decidable (cIsBull c) := by unfold cIsBull; infer_instance

instance (c : Row) : Decidable (cIsBear c) := by unfold cIsBear; infer_instance

def cBodyPct (c : Row) : ℚ := cBody c / cRange c

/-- A detected pattern; the date, Thai description, tip and emoji carried
by the source are omitted (no verified property reads them). -/
structure Pattern where
  pattern : String
  ptype : String
  strength : String
  confidence : ℤ
  barIndex : ℕ
  price : ℚ
  deriving DecidableEq, Repr

/-- The per-frame context precomputed by `detect_patterns_full` (lines
54-73): the last three candles, the 20-bar averages, the latest volume,
the latest bar index, the frame length and the mean of the five closes
before the last (used by rule 13). -/
structure PatCtx where
  c0 : Row
  c1 : Row
  c2 : Row
  avgBody : ℚ
  avgRange : ℚ
  avgVol : ℚ
  vol0 : ℚ
  barIdx : ℕ
  nBars : ℕ
  prev5Mean : ℚ
  deriving DecidableEq, Repr

def patCtx (df : List Row) : PatCtx :=
  { c0 := ilocNeg df 1
    c1 := ilocNeg df 2
    c2 := ilocNeg df 3
    avgBody := ((df.drop (df.length - 20)).map cBody).sum /
      ((df.drop (df.length - 20)).length : ℚ)
    avgRange := ((df.drop (df.length - 20)).map cRange).sum /
      ((df.drop (df.length - 20)).length : ℚ)
    avgVol := ((df.drop (df.length - 20)).map (fun r => r.volume)).sum /
      ((df.drop (df.length - 20)).length : ℚ)
    vol0 := (ilocNeg df 1).volume
    barIdx := df.length - 1
    nBars := df.length
    prev5Mean := (((df.drop (df.length - 6)).take 5).map (fun r => r.close)).sum /
      ((((df.drop (df.length - 6)).take 5).length : ℚ)) }

/-- The confidence of a long candle (rules 1-2, lines 77-78 and 94-95):
`conf = min(100, 60 + int((body_pct-0.6)*100))`, plus a capped 15-point
volume bonus when volume exceeds 1.2x the 20-bar average. -/
def longCandleConf (x : PatCtx) : ℤ :=
  if x.vol0 > x.avgVol * (12/10) then
    min 100 (min 100 (60 + pyTrunc ((cBodyPct x.c0 - 6/10) * 100)) + 15)
  else min 100 (60 + pyTrunc ((cBodyPct x.c0 - 6/10) * 100))

/-- The confidence of an engulfing candle (rules 6-7, lines 171-173 and
192-193): `conf = min(100, 65 + int((size_ratio-1)*20))` where the size
quotient divides by `max(body(c1), 1e-9)`, plus a capped 10-point volume
bonus when volume exceeds 1.3x the 20-bar average. -/
def engulfConf (x : PatCtx) : ℤ :=
  if x.vol0 > x.avgVol * (13/10) then
    min 100 (min 100
      (65 + pyTrunc ((cBody x.c0 / max (cBody x.c1) (1/1000000000) - 1) * 20)) + 10)
  else min 100 (65 + pyTrunc ((cBody x.c0 / max (cBody x.c1) (1/1000000000) - 1) * 20))

/-- The confidence of a hammer (rule 3, line 115): 55, +20 when the
prior candle is bearish, +10 when the hammer itself is bullish. -/
def hammerConf (x : PatCtx) : ℤ :=
  min 100 (55 + (if cIsBear x.c1 then 20 else 0) + (if cIsBull x.c0 then 10 else 0))

/-- The confidence of a shooting star (rule 4, line 134): 55, +20 when the
prior candle is bullish, +10 when the star itself is bearish. -/
def shootingStarConf (x : PatCtx) : ℤ :=
  min 100 (55 + (if cIsBull x.c1 then 20 else 0) + (if cIsBear x.c0 then 10 else 0))

/-- The confidence of a morning/evening star (rules 8-9, lines 212 and
230): 75, +10 on above-average volume. -/
def starReversalConf (x : PatCtx) : ℤ :=
  min 100 (75 + (if x.vol0 > x.avgVol then 10 else 0))

/-- The signal direction of a doji (rule 10, lines 248-250): SELL after a
large bullish candle, BUY after a large bearish one, otherwise NEUTRAL. -/
def dojiType (x : PatCtx) : String :=
  if cIsBull x.c1 ∧ cBody x.c1 > x.avgBody then "SELL"
  else if cIsBear x.c1 ∧ cBody x.c1 > x.avgBody then "BUY"
  else "NEUTRAL"

/-- Rule 1, Long Green Candle (lines 76-90). -/
def ruleLongGreen (x : PatCtx) : List Pattern :=
  if cIsBull x.c0 ∧ cBody x.c0 > x.avgBody * (15/10) ∧ cBodyPct x.c0 > 6/10 then
    [{ pattern := "Long Green Candle", ptype := "BUY",
       strength := if 75 ≤ longCandleConf x then "STRONG" else "MEDIUM",
       confidence := longCandleConf x, barIndex := x.barIdx, price := x.c0.close }]
  else []

/-- Rule 2, Long Red Candle (lines 93-107). -/
def ruleLongRed (x : PatCtx) : List Pattern :=
  if cIsBear x.c0 ∧ cBody x.c0 > x.avgBody * (15/10) ∧ cBodyPct x.c0 > 6/10 then
    [{ pattern := "Long Red Candle", ptype := "SELL",
       strength := if 75 ≤ longCandleConf x then "STRONG" else "MEDIUM",
       confidence := longCandleConf x, barIndex := x.barIdx, price := x.c0.close }]
  else []

/-- Rule 3, Hammer (lines 110-127). -/
def ruleHammer (x : PatCtx) : List Pattern :=
  if cLowerWick x.c0 > cBody x.c0 * 2 ∧ cUpperWick x.c0 < cBody x.c0 * (1/2) ∧
      cBodyPct x.c0 < 35/100 then
    [{ pattern := "Hammer", ptype := "BUY",
       strength := if cIsBear x.c1 then "STRONG" else "MEDIUM",
       confidence := hammerConf x, barIndex := x.barIdx, price := x.c0.close }]
  else []

/-- Rule 4, Shooting Star (lines 130-146). -/
def ruleShootingStar (x : PatCtx) : List Pattern :=
  if cUpperWick x.c0 > cBody x.c0 * 2 ∧ cLowerWick x.c0 < cBody x.c0 * (1/2) ∧
      cBodyPct x.c0 < 35/100 then
    [{ pattern := "Shooting Star", ptype := "SELL",
       strength := if cIsBull x.c1 then "STRONG" else "MEDIUM",
       confidence := shootingStarConf x, barIndex := x.barIdx, price := x.c0.high }]
  else []

/-- Rule 5, Inverted Hammer (lines 149-164). -/
def ruleInvertedHammer (x : PatCtx) : List Pattern :=
  if cUpperWick x.c0 > cBody x.c0 * 2 ∧ cLowerWick x.c0 < cBody x.c0 * (1/2) ∧
      cIsBear x.c1 then
    [{ pattern := "Inverted Hammer", ptype := "BUY", strength := "WEAK",
       confidence := 50, barIndex := x.barIdx, price := x.c0.close }]
  else []

/-- Rule 6, Bullish Engulfing (lines 167-185). -/
def ruleBullishEngulfing (x : PatCtx) : List Pattern :=
  if cIsBear x.c1 ∧ cIsBull x.c0 ∧ x.c0.open' ≤ x.c1.close ∧ x.c1.open' ≤ x.c0.close then
    [{ pattern := "Bullish Engulfing", ptype := "BUY", strength := "STRONG",
       confidence := engulfConf x, barIndex := x.barIdx, price := x.c0.close }]
  else []

/-- Rule 7, Bearish Engulfing (lines 188-206). -/
def ruleBearishEngulfing (x : PatCtx) : List Pattern :=
  if cIsBull x.c1 ∧ cIsBear x.c0 ∧ x.c1.close ≤ x.c0.open' ∧ x.c0.close ≤ x.c1.open' then
    [{ pattern := "Bearish Engulfing", ptype := "SELL", strength := "STRONG",
       confidence := engulfConf x, barIndex := x.barIdx, price := x.c0.close }]
  else []

/-- Rule 8, Morning Star (lines 209-224). -/
def ruleMorningStar (x : PatCtx) : List Pattern :=
  if cIsBear x.c2 ∧ cBody x.c1 < cBody x.c2 * (35/100) ∧ cIsBull x.c0 ∧
      (x.c2.open' + x.c2.close) / 2 < x.c0.close then
    [{ pattern := "Morning Star", ptype := "BUY", strength := "STRONG",
       confidence := starReversalConf x, barIndex := x.barIdx, price := x.c0.close }]
  else []

/-- Rule 9, Evening Star (lines 227-242). -/
def ruleEveningStar (x : PatCtx) : List Pattern :=
  if cIsBull x.c2 ∧ cBody x.c1 < cBody x.c2 * (35/100) ∧ cIsBear x.c0 ∧
      x.c0.close < (x.c2.open' + x.c2.close) / 2 then
    [{ pattern := "Evening Star", ptype := "SELL", strength := "STRONG",
       confidence := starReversalConf x, barIndex := x.barIdx, price := x.c0.close }]
  else []

/-- Rule 10, Doji (lines 245-263). -/
def ruleDoji (x : PatCtx) : List Pattern :=
  if cBodyPct x.c0 < 8/100 then
    [{ pattern := "Doji", ptype := dojiType x,
       strength := if dojiType x ≠ "NEUTRAL" then "MEDIUM" else "WEAK",
       confidence := if dojiType x ≠ "NEUTRAL" then 60 else 40,
       barIndex := x.barIdx, price := x.c0.close }]
  else []

/-- Rule 11, Three White Soldiers (lines 266-281). -/
def ruleThreeWhiteSoldiers (x : PatCtx) : List Pattern :=
  if cIsBull x.c0 ∧ cIsBull x.c1 ∧ cIsBull x.c2 ∧
      cBody x.c0 > x.avgBody * (8/10) ∧ cBody x.c1 > x.avgBody * (8/10) ∧
      x.c1.close < x.c0.close ∧ x.c2.close < x.c1.close then
    [{ pattern := "Three White Soldiers", ptype := "BUY", strength := "STRONG",
       confidence := 82, barIndex := x.barIdx, price := x.c0.close }]
  else []

/-- Rule 12, Three Black Crows (lines 284-299). -/
def ruleThreeBlackCrows (x : PatCtx) : List Pattern :=
  if cIsBear x.c0 ∧ cIsBear x.c1 ∧ cIsBear x.c2 ∧
      cBody x.c0 > x.avgBody * (8/10) ∧ cBody x.c1 > x.avgBody * (8/10) ∧
      x.c0.close < x.c1.close ∧ x.c1.close < x.c2.close then
    [{ pattern := "Three Black Crows", ptype := "SELL", strength := "STRONG",
       confidence := 82, barIndex := x.barIdx, price := x.c0.close }]
  else []

/-- Rule 13, Long Upper Shadow (lines 302-320). -/
def ruleLongUpperShadow (x : PatCtx) : List Pattern :=
  if cUpperWick x.c0 > cBody x.c0 * (25/10) ∧ cUpperWick x.c0 > x.avgRange * (4/10) ∧
      6 ≤ x.nBars ∧ x.prev5Mean < x.c0.close then
    [{ pattern := "Long Upper Shadow", ptype := "SELL", strength := "MEDIUM",
       confidence := 58, barIndex := x.barIdx, price := x.c0.high }]
  else []

/-- Rule 14, Tweezer Top (lines 323-337). -/
def ruleTweezerTop (x : PatCtx) : List Pattern :=
  if |x.c0.high - x.c1.high| / max x.c1.high (1/1000000000) < 3/1000 ∧
      cIsBull x.c1 ∧ cIsBear x.c0 then
    [{ pattern := "Tweezer Top", ptype := "SELL", strength := "MEDIUM",
       confidence := 65, barIndex := x.barIdx, price := x.c0.high }]
  else []

/-- Rule 15, Tweezer Bottom (lines 340-354). -/
def ruleTweezerBottom (x : PatCtx) : List Pattern :=
  if |x.c0.low - x.c1.low| / max x.c1.low (1/1000000000) < 3/1000 ∧
      cIsBear x.c1 ∧ cIsBull x.c0 then
    [{ pattern := "Tweezer Bottom", ptype := "BUY", strength := "MEDIUM",
       confidence := 65, barIndex := x.barIdx, price := x.c0.low }]
  else []

def allRules (x : PatCtx) : List Pattern :=
  ruleLongGreen x ++ ruleLongRed x ++ ruleHammer x ++ ruleShootingStar x ++
  ruleInvertedHammer x ++ ruleBullishEngulfing x ++ ruleBearishEngulfing x ++
  ruleMorningStar x ++ ruleEveningStar x ++ ruleDoji x ++
  ruleThreeWhiteSoldiers x ++ ruleThreeBlackCrows x ++ ruleLongUpperShadow x ++
  ruleTweezerTop x ++ ruleTweezerBottom x

/-- `detect_patterns_full` (candle_analysis.py lines 44-356): the 15
independent rules in source order, sorted by descending confidence
(Python's stable `sorted(..., reverse=True)`). -/
def detectPatternsFull (df : List Row) : List Pattern :=
  if df.length < 3 then []
  else sortByKey (fun p => -(p.confidence : ℚ)) (allRules (patCtx df))

/-- A three-bar frame whose last candle is an exact doji (open = close). -/
def dojiDf : List Row :=
  [mkBar 10, mkBar 10,
   { open' := 10, high := 11, low := 9, close := 10, volume := 1 }]

/-- The single pattern that `detect_patterns_full` reports on `dojiDf`:
a neutral doji at the floor confidence of 40. -/
def dojiPat : Pattern :=
  { pattern := "Doji", ptype := "NEUTRAL", strength := "WEAK",
    confidence := 40, barIndex := 2, price := 10 }

/-!
## Theorems
-/

lemma le_roundHalfEven (x : ℚ) : ⌊x⌋ ≤ roundHalfEven x := by
  unfold roundHalfEven; split_ifs <;> omega

lemma roundHalfEven_le_add_one (x : ℚ) : roundHalfEven x ≤ ⌊x⌋ + 1 := by
  unfold roundHalfEven; split_ifs <;> omega

lemma roundHalfEven_mono {x y : ℚ} (h : x ≤ y) :
    roundHalfEven x ≤ roundHalfEven y := by
  have hf : ⌊x⌋ ≤ ⌊y⌋ := Int.floor_le_floor h
  rcases lt_or_eq_of_le hf with hlt | heq
  · calc roundHalfEven x ≤ ⌊x⌋ + 1 := roundHalfEven_le_add_one x
      _ ≤ ⌊y⌋ := by omega
      _ ≤ roundHalfEven y := le_roundHalfEven y
  · unfold roundHalfEven
    rw [← heq]
    have hr : x - (⌊x⌋ : ℚ) ≤ y - (⌊x⌋ : ℚ) := by linarith
    split_ifs <;> first | omega | (exfalso; linarith)

lemma roundHalfEven_intCast (n : ℤ) : roundHalfEven (n : ℚ) = n := by
  unfold roundHalfEven
  rw [Int.floor_intCast]
  norm_num

lemma pyRound_mono (d : ℕ) {x y : ℚ} (h : x ≤ y) : pyRound d x ≤ pyRound d y := by
  unfold pyRound
  have hp : (0:ℚ) < 10 ^ d := by positivity
  have hm : x * 10 ^ d ≤ y * 10 ^ d := by nlinarith
  exact (div_le_div_iff_of_pos_right hp).mpr (Int.cast_le.mpr (roundHalfEven_mono hm))

lemma pyRound_pyRound (d : ℕ) (x : ℚ) : pyRound d (pyRound d x) = pyRound d x := by
  unfold pyRound
  rw [div_mul_cancel₀ _ (by positivity : ((10:ℚ))^d ≠ 0), roundHalfEven_intCast]

lemma pyRound_nonneg (d : ℕ) {x : ℚ} (h : 0 ≤ x) : 0 ≤ pyRound d x := by
  have h1 : (0:ℤ) ≤ roundHalfEven (x * 10 ^ d) := by
    have h2 := le_roundHalfEven (x * 10 ^ d)
    have h3 : (0:ℤ) ≤ ⌊x * 10 ^ d⌋ := Int.floor_nonneg.mpr (by positivity)
    omega
  unfold pyRound
  exact div_nonneg (by exact_mod_cast h1) (by positivity)

/-- C1: for every frame, `calculate_signal_score` returns an integer score
in [0, 100]: it starts at the neutral 50, is adjusted by the additive rule
contributions, and is clamped to [0, 100] before being returned. -/
theorem signal_score_bounded_and_clamped (df : List Row) :
    0 ≤ (calculateSignalScore df).1 ∧ (calculateSignalScore df).1 ≤ 100 ∧
    (calculateSignalScore df).1 =
      (if df.length < 5 then 50 else max 0 (min 100 (50 + signalDeltaSum df))) := by
  unfold calculateSignalScore
  by_cases h : df.length < 5
  · simp [h]
  · simp only [h, if_false]
    exact ⟨le_max_left _ _, max_le (by norm_num) (min_le_left _ _), trivial⟩

/-- Zone membership rescaled to the distance from the scan base: in an
uptrend the zone `(r0, r1)` contains `c` iff `R*r0 ≤ c - lo ≤ R*r1`, in a
downtrend iff `R*r0 ≤ hi - c ≤ R*r1`, where `R = hi - lo`. -/
lemma inZonePair_iff (isUp : Bool) (lo hi c r0 r1 : ℚ) (hR : lo < hi) (hr : r0 ≤ r1) :
    inZonePair isUp lo hi c (r0, r1) = true ↔
      (hi - lo) * r0 ≤ (cond isUp (c - lo) (hi - c)) ∧
      (cond isUp (c - lo) (hi - c)) ≤ (hi - lo) * r1 := by
  have hR' : (0:ℚ) ≤ hi - lo := by linarith
  have hmul : (hi - lo) * r0 ≤ (hi - lo) * r1 := mul_le_mul_of_nonneg_left hr hR'
  cases isUp with
  | true =>
    have hp : lo + 1 * (hi - lo) * r0 ≤ lo + 1 * (hi - lo) * r1 := by nlinarith [hmul]
    simp only [inZonePair, fp, cond_true, Bool.and_eq_true, decide_eq_true_eq,
      min_eq_left hp, max_eq_right hp]
    constructor
    · rintro ⟨a, b⟩; constructor <;> linarith
    · rintro ⟨a, b⟩; constructor <;> linarith
  | false =>
    have hp : hi + (-1) * (hi - lo) * r1 ≤ hi + (-1) * (hi - lo) * r0 := by nlinarith [hmul]
    simp only [inZonePair, fp, cond_false, Bool.and_eq_true, decide_eq_true_eq,
      min_eq_right hp, max_eq_left hp]
    constructor
    · rintro ⟨a, b⟩; constructor <;> linarith
    · rintro ⟨a, b⟩; constructor <;> linarith

/-- C2: for a price strictly between swing low and swing high (hence a
nonzero Fibonacci range), the ascending first-match zone scan shared by
`_scan_one` and `_scan_intraday` finds a zone; the zone returned is the
least-index containing zone; and any other containing zone is the
immediate successor with the price exactly on the shared boundary — zone
membership is exhaustive and mutually exclusive except at boundaries, and
a boundary price resolves to the lower zone index, in both trend
directions. -/
theorem fib_zone_exhaustive_exclusive_first_match
    (isUp : Bool) (lo hi c : ℚ) (h1 : lo < c) (h2 : c < hi) :
    ∃ k, zoneIdx isUp lo hi c = some k ∧ k < 6 ∧
      inZonePair isUp lo hi c (zonePairs.getD k (0, 0)) = true ∧
      (∀ j, j < k → inZonePair isUp lo hi c (zonePairs.getD j (0, 0)) = false) ∧
      (∀ j, j < 6 → inZonePair isUp lo hi c (zonePairs.getD j (0, 0)) = true →
        j = k ∨ (j = k + 1 ∧ c = fp isUp lo hi (zonePairs.getD k (0, 0)).2)) := by
  have hR : lo < hi := h1.trans h2
  have hRpos : (0:ℚ) < hi - lo := by linarith
  have key : ∀ r0 r1 : ℚ, r0 ≤ r1 →
      (inZonePair isUp lo hi c (r0, r1) = true ↔
        (hi - lo) * r0 ≤ (cond isUp (c - lo) (hi - c)) ∧
        (cond isUp (c - lo) (hi - c)) ≤ (hi - lo) * r1) :=
    fun r0 r1 hr => inZonePair_iff isUp lo hi c r0 r1 hR hr
  obtain ⟨tv, htv⟩ : ∃ tv, (cond isUp (c - lo) (hi - c) : ℚ) = tv := ⟨_, rfl⟩
  rw [htv] at key
  have ht0 : 0 < tv := by rw [← htv]; cases isUp <;> simp <;> linarith
  have htR : tv < hi - lo := by rw [← htv]; cases isUp <;> simp <;> linarith
  have hbound : ∀ r : ℚ, tv = (hi - lo) * r → c = fp isUp lo hi r := by
    intro r hb
    cases isUp with
    | true => simp only [cond_true] at htv; simp only [fp, cond_true]; linarith
    | false => simp only [cond_false] at htv; simp only [fp, cond_false]; linarith
  have M0 := key 0 (236/1000) (by norm_num)
  have M1 := key (236/1000) (382/1000) (by norm_num)
  have M2 := key (382/1000) (500/1000) (by norm_num)
  have M3 := key (500/1000) (618/1000) (by norm_num)
  have M4 := key (618/1000) (786/1000) (by norm_num)
  have M5 := key (786/1000) 1 (by norm_num)
  by_cases hc1 : tv ≤ (hi - lo) * (236/1000)
  · -- zone 0
    have mt : inZonePair isUp lo hi c (0, 236/1000) = true :=
      M0.mpr ⟨by linarith, hc1⟩
    refine ⟨0, ?_, by norm_num, ?_, ?_, ?_⟩
    · simp [zoneIdx, zonePairs, zoneIdxGo, mt]
    · exact mt
    · intro j hj; omega
    · intro j hj hmem
      interval_cases j
      · exact Or.inl rfl
      · exact Or.inr ⟨rfl, hbound _ (le_antisymm hc1 (M1.mp hmem).1)⟩
      · exact absurd (M2.mp hmem).1 (by intro h; linarith)
      · exact absurd (M3.mp hmem).1 (by intro h; linarith)
      · exact absurd (M4.mp hmem).1 (by intro h; linarith)
      · exact absurd (M5.mp hmem).1 (by intro h; linarith)
  · rw [not_le] at hc1
    by_cases hc2 : tv ≤ (hi - lo) * (382/1000)
    · -- zone 1
      have mf0 : inZonePair isUp lo hi c (0, 236/1000) = false := by
        rw [← Bool.not_eq_true, M0]; rintro ⟨a, b⟩; linarith
      have mt : inZonePair isUp lo hi c (236/1000, 382/1000) = true :=
        M1.mpr ⟨hc1.le, hc2⟩
      refine ⟨1, ?_, by norm_num, ?_, ?_, ?_⟩
      · simp [zoneIdx, zonePairs, zoneIdxGo, mf0, mt]
      · exact mt
      · intro j hj; interval_cases j; exact mf0
      · intro j hj hmem
        interval_cases j
        · exact absurd (M0.mp hmem).2 (by intro h; linarith)
        · exact Or.inl rfl
        · exact Or.inr ⟨rfl, hbound _ (le_antisymm hc2 (M2.mp hmem).1)⟩
        · exact absurd (M3.mp hmem).1 (by intro h; linarith)
        · exact absurd (M4.mp hmem).1 (by intro h; linarith)
        · exact absurd (M5.mp hmem).1 (by intro h; linarith)
    · rw [not_le] at hc2
      by_cases hc3 : tv ≤ (hi - lo) * (500/1000)
      · -- zone 2
        have mf0 : inZonePair isUp lo hi c (0, 236/1000) = false := by
          rw [← Bool.not_eq_true, M0]; rintro ⟨a, b⟩; linarith
        have mf1 : inZonePair isUp lo hi c (236/1000, 382/1000) = false := by
          rw [← Bool.not_eq_true, M1]; rintro ⟨a, b⟩; linarith
        have mt : inZonePair isUp lo hi c (382/1000, 500/1000) = true :=
          M2.mpr ⟨hc2.le, hc3⟩
        refine ⟨2, ?_, by norm_num, ?_, ?_, ?_⟩
        · simp [zoneIdx, zonePairs, zoneIdxGo, mf0, mf1, mt]
        · exact mt
        · intro j hj; interval_cases j
          · exact mf0
          · exact mf1
        · intro j hj hmem
          interval_cases j
          · exact absurd (M0.mp hmem).2 (by intro h; linarith)
          · exact absurd (M1.mp hmem).2 (by intro h; linarith)
          · exact Or.inl rfl
          · exact Or.inr ⟨rfl, hbound _ (le_antisymm hc3 (M3.mp hmem).1)⟩
          · exact absurd (M4.mp hmem).1 (by intro h; linarith)
          · exact absurd (M5.mp hmem).1 (by intro h; linarith)
      · rw [not_le] at hc3
        by_cases hc4 : tv ≤ (hi - lo) * (618/1000)
        · -- zone 3
          have mf0 : inZonePair isUp lo hi c (0, 236/1000) = false := by
            rw [← Bool.not_eq_true, M0]; rintro ⟨a, b⟩; linarith
          have mf1 : inZonePair isUp lo hi c (236/1000, 382/1000) = false := by
            rw [← Bool.not_eq_true, M1]; rintro ⟨a, b⟩; linarith
          have mf2 : inZonePair isUp lo hi c (382/1000, 500/1000) = false := by
            rw [← Bool.not_eq_true, M2]; rintro ⟨a, b⟩; linarith
          have mt : inZonePair isUp lo hi c (500/1000, 618/1000) = true :=
            M3.mpr ⟨hc3.le, hc4⟩
          refine ⟨3, ?_, by norm_num, ?_, ?_, ?_⟩
          · simp [zoneIdx, zonePairs, zoneIdxGo, mf0, mf1, mf2, mt]
          · exact mt
          · intro j hj; interval_cases j
            · exact mf0
            · exact mf1
            · exact mf2
          · intro j hj hmem
            interval_cases j
            · exact absurd (M0.mp hmem).2 (by intro h; linarith)
            · exact absurd (M1.mp hmem).2 (by intro h; linarith)
            · exact absurd (M2.mp hmem).2 (by intro h; linarith)
            · exact Or.inl rfl
            · exact Or.inr ⟨rfl, hbound _ (le_antisymm hc4 (M4.mp hmem).1)⟩
            · exact absurd (M5.mp hmem).1 (by intro h; linarith)
        · rw [not_le] at hc4
          by_cases hc5 : tv ≤ (hi - lo) * (786/1000)
          · -- zone 4
            have mf0 : inZonePair isUp lo hi c (0, 236/1000) = false := by
              rw [← Bool.not_eq_true, M0]; rintro ⟨a, b⟩; linarith
            have mf1 : inZonePair isUp lo hi c (236/1000, 382/1000) = false := by
              rw [← Bool.not_eq_true, M1]; rintro ⟨a, b⟩; linarith
            have mf2 : inZonePair isUp lo hi c (382/1000, 500/1000) = false := by
              rw [← Bool.not_eq_true, M2]; rintro ⟨a, b⟩; linarith
            have mf3 : inZonePair isUp lo hi c (500/1000, 618/1000) = false := by
              rw [← Bool.not_eq_true, M3]; rintro ⟨a, b⟩; linarith
            have mt : inZonePair isUp lo hi c (618/1000, 786/1000) = true :=
              M4.mpr ⟨hc4.le, hc5⟩
            refine ⟨4, ?_, by norm_num, ?_, ?_, ?_⟩
            · simp [zoneIdx, zonePairs, zoneIdxGo, mf0, mf1, mf2, mf3, mt]
            · exact mt
            · intro j hj; interval_cases j
              · exact mf0
              · exact mf1
              · exact mf2
              · exact mf3
            · intro j hj hmem
              interval_cases j
              · exact absurd (M0.mp hmem).2 (by intro h; linarith)
              · exact absurd (M1.mp hmem).2 (by intro h; linarith)
              · exact absurd (M2.mp hmem).2 (by intro h; linarith)
              · exact absurd (M3.mp hmem).2 (by intro h; linarith)
              · exact Or.inl rfl
              · exact Or.inr ⟨rfl, hbound _ (le_antisymm hc5 (M5.mp hmem).1)⟩
          · rw [not_le] at hc5
            -- zone 5
            have mf0 : inZonePair isUp lo hi c (0, 236/1000) = false := by
              rw [← Bool.not_eq_true, M0]; rintro ⟨a, b⟩; linarith
            have mf1 : inZonePair isUp lo hi c (236/1000, 382/1000) = false := by
              rw [← Bool.not_eq_true, M1]; rintro ⟨a, b⟩; linarith
            have mf2 : inZonePair isUp lo hi c (382/1000, 500/1000) = false := by
              rw [← Bool.not_eq_true, M2]; rintro ⟨a, b⟩; linarith
            have mf3 : inZonePair isUp lo hi c (500/1000, 618/1000) = false := by
              rw [← Bool.not_eq_true, M3]; rintro ⟨a, b⟩; linarith
            have mf4 : inZonePair isUp lo hi c (618/1000, 786/1000) = false := by
              rw [← Bool.not_eq_true, M4]; rintro ⟨a, b⟩; linarith
            have mt : inZonePair isUp lo hi c (786/1000, 1) = true :=
              M5.mpr ⟨hc5.le, by linarith⟩
            refine ⟨5, ?_, by norm_num, ?_, ?_, ?_⟩
            · simp [zoneIdx, zonePairs, zoneIdxGo, mf0, mf1, mf2, mf3, mf4, mt]
            · exact mt
            · intro j hj; interval_cases j
              · exact mf0
              · exact mf1
              · exact mf2
              · exact mf3
              · exact mf4
            · intro j hj hmem
              interval_cases j
              · exact absurd (M0.mp hmem).2 (by intro h; linarith)
              · exact absurd (M1.mp hmem).2 (by intro h; linarith)
              · exact absurd (M2.mp hmem).2 (by intro h; linarith)
              · exact absurd (M3.mp hmem).2 (by intro h; linarith)
              · exact absurd (M4.mp hmem).2 (by intro h; linarith)
              · exact Or.inl rfl

/-- Witness for C2: in an uptrend with swing range [10, 20] and price 16.18
(exactly on the 61.8% line) the scan resolves to zone 3 (50.0-61.8%),
the lower of the two adjacent zones. -/
theorem fib_zone_witness :
    (10:ℚ) < 1618/100 ∧ (1618/100:ℚ) < 20 ∧
    ∃ k, zoneIdx true 10 20 (1618/100) = some k ∧ k < 6 ∧
      inZonePair true 10 20 (1618/100) (zonePairs.getD k (0, 0)) = true ∧
      (∀ j, j < k → inZonePair true 10 20 (1618/100) (zonePairs.getD j (0, 0)) = false) ∧
      (∀ j, j < 6 → inZonePair true 10 20 (1618/100) (zonePairs.getD j (0, 0)) = true →
        j = k ∨ (j = k + 1 ∧ (1618/100:ℚ) = fp true 10 20 (zonePairs.getD k (0, 0)).2)) :=
  ⟨by norm_num, by norm_num,
    fib_zone_exhaustive_exclusive_first_match true 10 20 (1618/100)
      (by norm_num) (by norm_num)⟩


lemma scanLoop_calls {α : Type} (total : ℕ) (tasks : List (String × TaskOutcome α))
    (done : ℕ) :
    (scanLoop total tasks done).1 =
      (tasks.enumFrom done).map (fun e => (e.1 + 1, total, e.2.1)) := by
  induction tasks generalizing done with
  | nil => simp [scanLoop]
  | cons x rest ih =>
    obtain ⟨sym, out⟩ := x
    simp [scanLoop, List.enumFrom, ih]

lemma mtfScanLoopGo_calls {α : Type} (total : ℕ)
    (tasks : List ((String × String) × TaskOutcome α)) (done : ℕ) :
    mtfScanLoopGo total tasks done =
      (tasks.enumFrom done).map
        (fun e => (e.1 + 1, total, e.2.1.1 ++ " (" ++ e.2.1.2 ++ ")")) := by
  induction tasks generalizing done with
  | nil => simp [mtfScanLoopGo]
  | cons x rest ih =>
    obtain ⟨⟨sym, p⟩, out⟩ := x
    simp [mtfScanLoopGo, List.enumFrom, ih]

/-- C7: over any list of `n` submitted tasks, in any completion order and
regardless of each outcome (result, `None`, or exception), the progress
callback of `run_fibonacci_scan` is invoked exactly `n` times — the k-th
recorded invocation being `(k, n, symbol)` — and likewise for
`run_multi_timeframe_scan` with the `"sym (period)"` label; in particular
scanning 5 symbols of which 2 fail invokes the callback exactly 5 times. -/
theorem progress_callback_once_per_task {α : Type}
    (tasks : List (String × TaskOutcome α))
    (mtasks : List ((String × String) × TaskOutcome α)) :
    (runScanCallbacks tasks).1.length = tasks.length ∧
    (runScanCallbacks tasks).1 =
      (tasks.enumFrom 0).map (fun e => (e.1 + 1, tasks.length, e.2.1)) ∧
    (mtfScanCalls mtasks).length = mtasks.length ∧
    mtfScanCalls mtasks =
      (mtasks.enumFrom 0).map
        (fun e => (e.1 + 1, mtasks.length, e.2.1.1 ++ " (" ++ e.2.1.2 ++ ")")) := by
  refine ⟨?_, scanLoop_calls _ _ _, ?_, mtfScanLoopGo_calls _ _ _⟩
  · rw [runScanCallbacks, scanLoop_calls]; simp
  · rw [mtfScanCalls, mtfScanLoopGo_calls]; simp

/-- C3 (amended): the Scanner stop-losses sit strictly on the correct side
of a positive current price — below it in an uptrend (the hard cap at 98%
of price in swing mode, 99% intraday), above it in a downtrend (the floor
at 102% / 101%) — for any swing range and any ATR.  The Target Calculator
does not share this law: see
`target_calculator_stop_loss_not_below_price`. -/
theorem scanner_stop_loss_correct_side (lo hi current atr : ℚ) (hc : 0 < current) :
    swingStopLoss true lo hi current atr < current ∧
    current < swingStopLoss false lo hi current atr ∧
    intradayStopLoss true current atr < current ∧
    current < intradayStopLoss false current atr := by
  refine ⟨?_, ?_, ?_, ?_⟩
  · exact lt_of_le_of_lt (min_le_right _ _) (by linarith)
  · exact lt_of_lt_of_le (by linarith) (le_max_right _ _)
  · exact lt_of_le_of_lt (min_le_right _ _) (by linarith)
  · exact lt_of_lt_of_le (by linarith) (le_max_right _ _)

theorem scanner_stop_loss_witness :
    (0:ℚ) < 100 ∧
    swingStopLoss true 80 120 100 2 < 100 ∧
    (100:ℚ) < swingStopLoss false 80 120 100 2 ∧
    intradayStopLoss true 100 2 < 100 ∧
    (100:ℚ) < intradayStopLoss false 100 2 :=
  ⟨by norm_num,
   (scanner_stop_loss_correct_side 80 120 100 2 (by norm_num)).1,
   (scanner_stop_loss_correct_side 80 120 100 2 (by norm_num)).2.1,
   (scanner_stop_loss_correct_side 80 120 100 2 (by norm_num)).2.2.1,
   (scanner_stop_loss_correct_side 80 120 100 2 (by norm_num)).2.2.2⟩

set_option maxRecDepth 10000 in
/-- C3 counterexample: on `cexDf` — an uptrend by the scanner's own
mean-of-halves trend test — `calculate_price_targets` at current price
100 returns a stop-loss that is NOT strictly below the current price:
the nearest support 101.8 sits just above the price, so
`buy_low = round(101.8*0.99, 2) = 100.78` and with ATR 0.1 the stop-loss
is `100.78 - 0.15 = 100.63 > 100`. -/
theorem target_calculator_stop_loss_not_below_price :
    fallbackUptrend (cexDf.map (fun r => r.close)) = true ∧
    ((calculatePriceTargets cexDf 100).map
      (fun t => decide (t.stopLoss < 100))) = some false := by
  exact ⟨by decide, by decide⟩

set_option maxRecDepth 10000 in
/-- C9 counterexample: on the 30-bar ramp 1..30 the support list returned
is [1], a level 96.7% below the current price 30 — the support filter
keeps every level below `current*1.02`, not only those within ±2% of the
current price. -/
theorem support_filter_not_within_two_pct :
    findSupportResistance rampDf 10 = ([1], [30]) ∧
    ¬(|(1 : ℚ) - 30| ≤ (2/100) * 30) := by
  exact ⟨by decide, by norm_num⟩


lemma mem_insertKey {α : Type} (k : α → ℚ) (x a : α) (l : List α) :
    a ∈ insertKey k x l ↔ a = x ∨ a ∈ l := by
  induction l with
  | nil => simp [insertKey]
  | cons y ys ih =>
    by_cases h : k x < k y
    · simp [insertKey, h]
    · simp [insertKey, h, ih]
      tauto

lemma mem_sortByKey {α : Type} (k : α → ℚ) (a : α) (l : List α) :
    a ∈ sortByKey k l ↔ a ∈ l := by
  induction l with
  | nil => simp [sortByKey]
  | cons x xs ih => simp [sortByKey, mem_insertKey, ih]

lemma pairwise_insertKey {α : Type} (k : α → ℚ) (x : α) (l : List α)
    (h : l.Pairwise (fun a b => k a ≤ k b)) :
    (insertKey k x l).Pairwise (fun a b => k a ≤ k b) := by
  induction l with
  | nil => simp [insertKey]
  | cons y ys ih =>
    rw [List.pairwise_cons] at h
    obtain ⟨hy, hys⟩ := h
    by_cases hlt : k x < k y
    · rw [insertKey, if_pos hlt]
      refine List.Pairwise.cons ?_ (List.Pairwise.cons hy hys)
      intro b hb
      rcases List.mem_cons.mp hb with rfl | hb
      · exact hlt.le
      · exact hlt.le.trans (hy b hb)
    · rw [insertKey, if_neg hlt]
      refine List.Pairwise.cons ?_ (ih hys)
      intro b hb
      rcases (mem_insertKey k x b ys).mp hb with rfl | hb
      · exact le_of_not_lt hlt
      · exact hy b hb

lemma pairwise_sortByKey {α : Type} (k : α → ℚ) (l : List α) :
    (sortByKey k l).Pairwise (fun a b => k a ≤ k b) := by
  induction l with
  | nil => simp [sortByKey]
  | cons x xs ih => exact pairwise_insertKey k x _ ih

/-- C9 (amended): the support/resistance finder returns at most 7
supports, each strictly below 102% of the current price, and at most 7
resistances, each strictly above 98% of it, both lists sorted by
proximity to the current price.  (The filters are one-sided — a support
may lie arbitrarily far below the price; see
`support_filter_not_within_two_pct`.) -/
theorem support_resistance_bounds (df : List Row) (w : ℕ) :
    (∀ s ∈ (findSupportResistance df w).1,
        s < ((df.map (fun r => r.close)).getLast?.getD 0) * (102/100)) ∧
    (∀ r ∈ (findSupportResistance df w).2,
        ((df.map (fun r => r.close)).getLast?.getD 0) * (98/100) < r) ∧
    (findSupportResistance df w).1.length ≤ 7 ∧
    (findSupportResistance df w).2.length ≤ 7 ∧
    (findSupportResistance df w).1.Pairwise
      (fun a b => |a - ((df.map (fun r => r.close)).getLast?.getD 0)| ≤
                  |b - ((df.map (fun r => r.close)).getLast?.getD 0)|) ∧
    (findSupportResistance df w).2.Pairwise
      (fun a b => |a - ((df.map (fun r => r.close)).getLast?.getD 0)| ≤
                  |b - ((df.map (fun r => r.close)).getLast?.getD 0)|) := by
  refine ⟨?_, ?_, ?_, ?_, ?_, ?_⟩
  · intro s hs
    have h1 := List.mem_of_mem_take hs
    rw [mem_sortByKey] at h1
    exact of_decide_eq_true (List.mem_filter.mp h1).2
  · intro r hr
    have h1 := List.mem_of_mem_take hr
    rw [mem_sortByKey] at h1
    exact of_decide_eq_true (List.mem_filter.mp h1).2
  · exact List.length_take_le 7 _
  · exact List.length_take_le 7 _
  · exact List.Pairwise.sublist (List.take_sublist _ _) (pairwise_sortByKey _ _)
  · exact List.Pairwise.sublist (List.take_sublist _ _) (pairwise_sortByKey _ _)

set_option maxRecDepth 10000 in
theorem support_resistance_bounds_witness :
    (1:ℚ) < 30 * (102/100) ∧ 30 * (98/100) < (30:ℚ) :=
  ⟨(support_resistance_bounds rampDf 10).1 1 (by decide),
   (support_resistance_bounds rampDf 10).2.1 30 (by decide)⟩


set_option maxRecDepth 10000 in
/-- C4 counterexample: on the uptrending frame `cexDf` (current price
100) the 61.8% retracement of the 60-bar range, 113.71, lies far above
the price, so buy_zone.high = round(113.71*1.01) = 114.85 exceeds tp1,
and with the stop-loss above the current price tp2 < tp1: the claimed
chain `buy_zone.high < targets[0] < targets[1]` fails. -/
theorem targets_ordering_invariant_fails :
    fallbackUptrend (cexDf.map (fun r => r.close)) = true ∧
    ((calculatePriceTargets cexDf 100).map
      (fun t => decide (t.buyHigh < t.tp1 ∧ t.tp1 < t.tp2))) = some false := by
  exact ⟨by decide, by decide⟩

lemma getD_mem_of_lt {α : Type} (l : List α) (i : ℕ) (d : α) (h : i < l.length) :
    l.getD i d ∈ l := by
  induction l generalizing i with
  | nil => simp at h
  | cons a t ih =>
    cases i with
    | zero => exact List.mem_cons_self a t
    | succ n =>
      exact List.mem_cons_of_mem _ (ih n (Nat.succ_lt_succ_iff.mp (by simpa using h)))

lemma clusterGo_pos (rest : List ℚ) :
    ∀ (sum : ℚ) (cnt : ℕ) (lastv : ℚ), (∀ y ∈ rest, 0 < y) → 0 < sum → 0 < cnt →
    ∀ x ∈ clusterGo rest sum cnt lastv, 0 < x := by
  induction rest with
  | nil =>
    intro sum cnt lastv _ hsum hcnt x hx
    simp only [clusterGo, List.mem_singleton] at hx
    subst hx
    exact div_pos hsum (by exact_mod_cast hcnt)
  | cons lv r ih =>
    intro sum cnt lastv hrest hsum hcnt x hx
    have hlv : 0 < lv := hrest lv (List.mem_cons_self _ _)
    have hr : ∀ y ∈ r, 0 < y := fun y hy => hrest y (List.mem_cons_of_mem _ hy)
    by_cases hc : |lv - lastv| / max lastv (1/1000000000) ≤ 1/100
    · rw [clusterGo, if_pos hc] at hx
      exact ih (sum + lv) (cnt + 1) lv hr (by linarith) (Nat.succ_pos _) x hx
    · rw [clusterGo, if_neg hc] at hx
      rcases List.mem_cons.mp hx with rfl | hx
      · exact div_pos hsum (by exact_mod_cast hcnt)
      · exact ih lv 1 lv hr hlv Nat.one_pos x hx

lemma clusterLevels_pos (l : List ℚ) (hl : ∀ y ∈ l, 0 < y) :
    ∀ x ∈ clusterLevels l, 0 < x := by
  cases l with
  | nil => simp [clusterLevels]
  | cons a r =>
    exact clusterGo_pos r a 1 a
      (fun y hy => hl y (List.mem_cons_of_mem _ hy))
      (hl a (List.mem_cons_self _ _)) Nat.one_pos

lemma sortedSet_mem (xs : List ℚ) (a : ℚ) : a ∈ sortedSet xs ↔ a ∈ xs := by
  unfold sortedSet
  rw [mem_sortByKey, List.mem_dedup]

/-- Every support returned by `find_support_resistance` is positive when
all closes are positive (it is a mean of a cluster of close values). -/
lemma supports_pos (df : List Row) (w : ℕ) (hdf : ∀ r ∈ df, 0 < r.close) :
    ∀ s ∈ (findSupportResistance df w).1, 0 < s := by
  intro s hs
  have h1 := List.mem_of_mem_take hs
  rw [mem_sortByKey] at h1
  have h2 := (List.mem_filter.mp h1).1
  refine clusterLevels_pos _ ?_ s h2
  intro y hy
  rw [sortedSet_mem] at hy
  obtain ⟨i, hi, rfl⟩ := List.mem_map.mp hy
  have hlen : i < (df.map (fun r => r.close)).length :=
    List.mem_range.mp (List.mem_filter.mp hi).1
  have hmem := getD_mem_of_lt (df.map (fun r => r.close)) i 0 hlen
  obtain ⟨r, hr, hrc⟩ := List.mem_map.mp hmem
  exact hrc ▸ hdf r hr


lemma listMax_spec : ∀ (xs : List ℚ) (m : ℚ), listMax xs = some m →
    m ∈ xs ∧ ∀ x ∈ xs, x ≤ m := by
  intro xs
  induction xs with
  | nil => intro m hm; simp [listMax] at hm
  | cons x xs ih =>
    intro m hm
    rw [listMax] at hm
    rcases hx : listMax xs with _ | mx
    · rw [hx] at hm
      have hxs : xs = [] := by
        cases xs with
        | nil => rfl
        | cons a t => rw [listMax] at hx; exact absurd hx (by simp)
      subst hxs
      simp at hm
      subst hm
      exact ⟨List.mem_singleton_self x, by simp⟩
    · rw [hx] at hm
      simp only [Option.some.injEq] at hm
      obtain ⟨hmem, hbound⟩ := ih mx hx
      subst hm
      constructor
      · rcases le_total x mx with h | h
        · exact List.mem_cons_of_mem _ (by simpa [max_eq_right h] using hmem)
        · simp [max_eq_left h]
      · intro y hy
        rcases List.mem_cons.mp hy with rfl | hy
        · exact le_max_left _ _
        · exact (hbound y hy).trans (le_max_right _ _)

lemma listMin_spec : ∀ (xs : List ℚ) (m : ℚ), listMin xs = some m →
    m ∈ xs ∧ ∀ x ∈ xs, m ≤ x := by
  intro xs
  induction xs with
  | nil => intro m hm; simp [listMin] at hm
  | cons x xs ih =>
    intro m hm
    rw [listMin] at hm
    rcases hx : listMin xs with _ | mx
    · rw [hx] at hm
      have hxs : xs = [] := by
        cases xs with
        | nil => rfl
        | cons a t => rw [listMin] at hx; exact absurd hx (by simp)
      subst hxs
      simp at hm
      subst hm
      exact ⟨List.mem_singleton_self x, by simp⟩
    · rw [hx] at hm
      simp only [Option.some.injEq] at hm
      obtain ⟨hmem, hbound⟩ := ih mx hx
      subst hm
      constructor
      · rcases le_total x mx with h | h
        · simp [min_eq_left h]
        · exact List.mem_cons_of_mem _ (by simpa [min_eq_right h] using hmem)
      · intro y hy
        rcases List.mem_cons.mp hy with rfl | hy
        · exact min_le_left _ _
        · exact (min_le_right _ _).trans (hbound y hy)


/-- C4 (amended): for frames whose closes and lows are positive, whose
bars satisfy low ≤ high, and whose ATR column (when present) is
nonnegative, every Targets object returned by the Target Calculator
satisfies `stop_loss ≤ buy_zone.low ≤ buy_zone.high`, and
`targets[0] ≤ targets[1]` whenever the stop-loss is at or below the
current price.  The strict chain of the claim — in particular
`buy_zone.high < targets[0]` — does not hold on the code (see
`targets_ordering_invariant_fails`). -/
theorem targets_partial_ordering (df : List Row) (cp : ℚ) (t : Targets)
    (hdfc : ∀ r ∈ df, 0 < r.close)
    (hdfl : ∀ r ∈ df, 0 < r.low)
    (hdlh : ∀ r ∈ df, r.low ≤ r.high)
    (hatr : ∀ a, (lastRow df).atr = some a → 0 ≤ a)
    (hcp : 0 < cp)
    (ht : calculatePriceTargets df cp = some t) :
    t.stopLoss ≤ t.buyLow ∧ t.buyLow ≤ t.buyHigh ∧
    (t.stopLoss ≤ cp → t.tp1 ≤ t.tp2) := by
  unfold calculatePriceTargets at ht
  rcases hmax : rollingMaxLast 60 (df.map (fun r => r.high)) with _ | ph
  · rw [hmax] at ht; exact absurd ht (by simp)
  rcases hmin : rollingMinLast 60 (df.map (fun r => r.low)) with _ | pl
  · rw [hmax, hmin] at ht; exact absurd ht (by simp)
  rw [hmax, hmin] at ht
  dsimp only at ht
  rw [Option.some_inj] at ht
  subst ht
  -- nonnegative effective ATR
  have hatr0 : 0 ≤ ((lastRow df).atr).getD (cp * (2/100)) := by
    rcases hA : (lastRow df).atr with _ | a
    · simp only [hA, Option.getD_none]; positivity
    · simpa only [hA, Option.getD_some] using hatr a hA
  -- the 60-bar window low is positive and at most the window high
  have hwin : 0 < pl ∧ pl ≤ ph := by
    rw [rollingMinLast] at hmin
    rw [rollingMaxLast] at hmax
    simp only [List.length_map] at hmin hmax
    by_cases hlen : df.length < 60
    · rw [if_pos hlen] at hmin; exact absurd hmin (by simp)
    · rw [if_neg hlen] at hmin
      rw [if_neg hlen] at hmax
      obtain ⟨hplmem, _⟩ := listMin_spec _ pl hmin
      obtain ⟨_, hphub⟩ := listMax_spec _ ph hmax
      rw [← List.map_drop] at hplmem
      obtain ⟨r0, hr0, hr0l⟩ := List.mem_map.mp hplmem
      have hr0df : r0 ∈ df := (List.drop_subset _ _) hr0
      have hhigh : r0.high ∈ (df.map (fun r => r.high)).drop (df.length - 60) := by
        rw [← List.map_drop]
        exact List.mem_map.mpr ⟨r0, hr0, rfl⟩
      have h1 : r0.high ≤ ph := by
        apply hphub
        simpa using hhigh
      constructor
      · exact hr0l ▸ hdfl r0 hr0df
      · calc pl = r0.low := hr0l.symm
          _ ≤ r0.high := hdlh r0 hr0df
          _ ≤ ph := h1
  obtain ⟨hpl0, hplph⟩ := hwin
  -- the rounded 61.8% retracement is nonnegative
  have hfib : 0 ≤ pyRound 2 (pl + (ph - pl) * (618/1000)) :=
    pyRound_nonneg 2 (by nlinarith)
  -- the nearest support is positive
  have hns : 0 < (match (findSupportResistance df 10).1 with
      | [] => cp * (95/100)
      | s :: _ => s) := by
    rcases hsr : (findSupportResistance df 10).1 with _ | ⟨s0, rest⟩
    · dsimp only; positivity
    · dsimp only
      exact supports_pos df 10 hdfc s0 (by rw [hsr]; exact List.mem_cons_self _ _)
  refine ⟨?_, ?_, ?_⟩
  · -- stop_loss ≤ buy_low
    refine le_trans (pyRound_mono 2 ?_) (le_of_eq (pyRound_pyRound 2 _))
    nlinarith [hatr0]
  · -- buy_low ≤ buy_high
    apply pyRound_mono 2
    have h0 : (0:ℚ) ≤ min (match (findSupportResistance df 10).1 with
        | [] => cp * (95/100)
        | s :: _ => s) (pyRound 2 (pl + (ph - pl) * (618/1000))) :=
      le_min hns.le hfib
    have h1 := min_le_max (a := (match (findSupportResistance df 10).1 with
        | [] => cp * (95/100)
        | s :: _ => s)) (b := pyRound 2 (pl + (ph - pl) * (618/1000)))
    nlinarith [h0, h1]
  · -- tp1 ≤ tp2 when the stop-loss is at or below the current price
    intro hsl
    apply pyRound_mono 2
    dsimp only at hsl
    nlinarith [hsl]


set_option maxRecDepth 10000 in
theorem targets_partial_ordering_witness :
    ∃ t, calculatePriceTargets cexDf 100 = some t ∧
      t.stopLoss ≤ t.buyLow ∧ t.buyLow ≤ t.buyHigh ∧
      (t.stopLoss ≤ 100 → t.tp1 ≤ t.tp2) := by
  rcases hEq : calculatePriceTargets cexDf 100 with _ | t
  · exact absurd hEq (by decide)
  · refine ⟨t, rfl, targets_partial_ordering cexDf 100 t (by decide) (by decide)
      (by decide) ?_ (by norm_num) hEq⟩
    intro a ha
    have h10 : (lastRow cexDf).atr = some (1/10) := by decide
    rw [h10, Option.some_inj] at ha
    rw [← ha]
    norm_num


/-- C5: the decision table of `generate_recommendation` is evaluated
top-to-bottom with the first matching branch winning; its first branch
yields action BUY exactly when score ≥ 72 ∧ EMA9 > EMA21 > EMA50 ∧ MACD >
signal ∧ histogram > 0 ∧ price > EMA200 ∧ RSI ≤ 70 (stated for frames
with a positive close and nonnegative EMA200, so the `ema200 > 0` guard
in `above_ema200` is equivalent to the plain comparison), with confidence
HIGH iff score ≥ 80 (else MEDIUM); and when no branch guard holds the
action is WAIT. -/
theorem recommendation_decision_table (df : List Row) (score : ℤ)
    (signals : List Signal) (regime : String) (cp : ℚ) (tf : String)
    (h5 : 5 ≤ df.length)
    (hclose : 0 < (lastRow df).close)
    (hema : ∀ x, (lastRow df).ema200 = some x → 0 ≤ x) :
    ((generateRecommendation df score signals regime cp tf).action = .BUY ↔
      (72 ≤ score ∧
       (recInputs (lastRow df) (ilocNeg df 2)).ema21 <
         (recInputs (lastRow df) (ilocNeg df 2)).ema9 ∧
       (recInputs (lastRow df) (ilocNeg df 2)).ema50 <
         (recInputs (lastRow df) (ilocNeg df 2)).ema21 ∧
       (recInputs (lastRow df) (ilocNeg df 2)).macdSig <
         (recInputs (lastRow df) (ilocNeg df 2)).macd ∧
       0 < (recInputs (lastRow df) (ilocNeg df 2)).macdH ∧
       (recInputs (lastRow df) (ilocNeg df 2)).ema200 <
         (recInputs (lastRow df) (ilocNeg df 2)).close ∧
       (recInputs (lastRow df) (ilocNeg df 2)).rsi ≤ 70)) ∧
    ((generateRecommendation df score signals regime cp tf).action = .BUY →
      ((generateRecommendation df score signals regime cp tf).confidence = .HIGH ↔
        80 ≤ score)) ∧
    (¬buyCond (recInputs (lastRow df) (ilocNeg df 2)) score →
     ¬accumulateCond (recInputs (lastRow df) (ilocNeg df 2)) score signals →
     ¬holdCond (recInputs (lastRow df) (ilocNeg df 2)) score →
     ¬reduceCond (recInputs (lastRow df) (ilocNeg df 2)) score signals →
     ¬sellCond (recInputs (lastRow df) (ilocNeg df 2)) score signals regime →
     (generateRecommendation df score signals regime cp tf).action = .WAIT) := by
  have hlt : ¬(df.length < 5) := by omega
  have hprev : (if 2 ≤ df.length then ilocNeg df 2 else lastRow df) = ilocNeg df 2 :=
    if_pos (by omega)
  set v := recInputs (lastRow df) (ilocNeg df 2) with hv
  have hemapos : 0 < v.ema200 := by
    rw [hv]
    show 0 < getOr (lastRow df).ema200 (lastRow df).close
    rcases hE : (lastRow df).ema200 with _ | x
    · simpa [getOr] using hclose
    · by_cases hx : x = 0
      · simp only [getOr, hx, if_pos rfl]
        exact hclose
      · simp only [getOr, if_neg hx]
        exact lt_of_le_of_ne (hema x hE) (Ne.symm hx)
  have habove : aboveEma200 v ↔ v.ema200 < v.close := by
    unfold aboveEma200
    rw [if_pos hemapos]
  have hga : generateRecommendation df score signals regime cp tf =
      recommendationFromInputs v score signals regime tf := by
    rw [generateRecommendation, if_neg hlt, hprev]
  have haction : (recommendationFromInputs v score signals regime tf).action =
      (actionConfidence v score signals regime).1 := rfl
  have hconf : (recommendationFromInputs v score signals regime tf).confidence =
      (actionConfidence v score signals regime).2 := rfl
  rw [hga, haction, hconf]
  have hbuyiff : buyCond v score ↔
      (72 ≤ score ∧ v.ema21 < v.ema9 ∧ v.ema50 < v.ema21 ∧ v.macdSig < v.macd ∧
       0 < v.macdH ∧ v.ema200 < v.close ∧ v.rsi ≤ 70) := by
    unfold buyCond emaAlignedUp macdBullishCond rsiOverbought
    rw [habove, not_lt]
    tauto
  by_cases hc1 : buyCond v score
  · rw [actionConfidence, if_pos hc1]
    refine ⟨?_, ?_, ?_⟩
    · simpa using hbuyiff.mp hc1
    · intro _
      by_cases h80 : 80 ≤ score
      · simp [h80]
      · simp [h80]
    · intro hb
      exact absurd hc1 hb
  · rw [actionConfidence, if_neg hc1]
    have hnotbuy : (if accumulateCond v score signals then
          ((Action.ACCUMULATE, Confidence.MEDIUM) : Action × Confidence)
        else if holdCond v score then (.HOLD, .LOW)
        else if reduceCond v score signals then (.REDUCE, .MEDIUM)
        else if sellCond v score signals regime then
          (.SELL, if score < 30 then .HIGH else .MEDIUM)
        else (.WAIT, .LOW)).1 ≠ Action.BUY := by
      split_ifs <;> simp
    refine ⟨?_, ?_, ?_⟩
    · simp only [hnotbuy, false_iff]
      intro hr
      exact hc1 (hbuyiff.mpr hr)
    · intro h
      exact absurd h hnotbuy
    · intro _ h2 h3 h4 h5x
      rw [if_neg h2, if_neg h3, if_neg h4, if_neg h5x]


theorem recommendation_decision_table_witness :
    (generateRecommendation recWitDf 85 [] "SIDEWAYS" 20 "1D").action = Action.BUY ∧
    (generateRecommendation recWitDf 85 [] "SIDEWAYS" 20 "1D").confidence =
      Confidence.HIGH := by
  have h := recommendation_decision_table recWitDf 85 [] "SIDEWAYS" 20 "1D"
    (by decide) (by decide) ?hema
  case hema =>
    intro x hx
    have h9 : (lastRow recWitDf).ema200 = some 9 := by decide
    rw [h9, Option.some_inj] at hx
    subst hx
    norm_num
  obtain ⟨hiff, hconf, _⟩ := h
  have hbuy := hiff.mpr (by refine ⟨by decide, ?_, ?_, ?_, ?_, ?_, ?_⟩ <;> decide)
  exact ⟨hbuy, (hconf hbuy).mpr (by decide)⟩


/-- C6 counterexample: with all three periods in zone "23.6–38.2%" — not
the golden zone — and per-period fib scores 92, the substring test grants
the 15-point "all golden" bonus and the cap truncates the sum to 100:
the resulting mtf_score differs from avg + b for every bonus value
b ∈ {0, 5, 10, 15} of the claimed table, and the bonus fired although no
period lies in the golden zone. -/
theorem mtf_score_not_average_plus_claimed_bonus :
    ((mergeSymbol 40 cex6).map (fun m => m.mtfScore)) = some 100 ∧
    cex6.all (fun pr => !(isStarZone pr.2.zone)) = true ∧
    (cex6.map (fun pr => pr.2.fibScore)).sum / ((cex6.length : ℕ) : ℚ) = 92 ∧
    ∀ b ∈ ([0, 5, 10, 15] : List ℚ), (100 : ℚ) ≠ 92 + b := by
  refine ⟨by decide, by decide, by decide, by decide⟩

/-- C6 (amended): for each symbol with at least one fetched period,
mtf_score = min(100, round₁(average per-period fib score + bonus)), the
bonus being 15 when ≥3 periods were evaluated and every period's zone
label contains "38", "50", "61" or the golden star (the four middle
zones — a strict superset of the golden zone), 10 when ≥2 periods all
match, 5 when ≥2 periods, else 0; passed_tfs counts the periods whose
fib score clears the threshold, the label reading "2 จาก 3" exactly when
passed_tfs = 2; and the merged row is re-graded by mtf_score thresholds
A+≥80, A≥70, B+≥58, B≥45 (else C). -/
theorem mtf_merge_spec (minFib : ℚ) (prs : List (String × SRow)) (hne : prs ≠ []) :
    ∃ m, mergeSymbol minFib prs = some m ∧
      m.mtfScore = min 100 (pyRound 1
        ((prs.map (fun pr => pr.2.fibScore)).sum / (prs.length : ℚ) +
          (if 3 ≤ prs.length ∧ prs.all (fun pr => isGoldenLabel pr.2.zone) = true then (15:ℚ)
           else if 2 ≤ prs.length ∧ prs.all (fun pr => isGoldenLabel pr.2.zone) = true then 10
           else if 2 ≤ prs.length then 5 else 0))) ∧
      m.passedTfs = ((prs.map (fun pr => pr.2.fibScore)).filter
        (fun s => decide (minFib ≤ s))).length ∧
      (m.passedTfs = 2 → m.confluence = "🟢🟢⚪ 2 จาก 3 Timeframe") ∧
      m.grade = mtfGrade m.mtfScore := by
  match prs, hne with
  | p0 :: rest, _ =>
    refine ⟨_, rfl, rfl, rfl, ?_, rfl⟩
    intro h2
    show confluenceLabel _ = _
    rw [show (((((p0 :: rest).map (fun pr => pr.2.fibScore)).filter
        (fun s => decide (minFib ≤ s))).length) : ℕ) = 2 from h2]
    rfl

theorem mtf_merge_spec_witness :
    ∃ m, mergeSymbol 40 cex6 = some m ∧
      m.mtfScore = min 100 (pyRound 1
        ((cex6.map (fun pr => pr.2.fibScore)).sum / (cex6.length : ℚ) +
          (if 3 ≤ cex6.length ∧ cex6.all (fun pr => isGoldenLabel pr.2.zone) = true then (15:ℚ)
           else if 2 ≤ cex6.length ∧ cex6.all (fun pr => isGoldenLabel pr.2.zone) = true then 10
           else if 2 ≤ cex6.length then 5 else 0))) ∧
      m.passedTfs = ((cex6.map (fun pr => pr.2.fibScore)).filter
        (fun s => decide ((40:ℚ) ≤ s))).length ∧
      (m.passedTfs = 2 → m.confluence = "🟢🟢⚪ 2 จาก 3 Timeframe") ∧
      m.grade = mtfGrade m.mtfScore :=
  mtf_merge_spec 40 cex6 (by decide)

lemma bellVariance_nonneg (df : List Row) (window : ℕ) :
    0 ≤ bellVariance df window := by
  unfold bellVariance
  rcases Nat.eq_zero_or_pos (bellRecent df window).length with h | h
  · rw [List.length_eq_zero.mp h]
    simp
  · apply div_nonneg
    · apply List.sum_nonneg
      intro x hx
      obtain ⟨y, _, rfl⟩ := List.mem_map.mp hx
      positivity
    · have h1 : (1:ℚ) ≤ ((bellRecent df window).length : ℚ) := by exact_mod_cast h
      linarith

/-- C8: `analyze_bell_curve` returns the empty result whenever the frame
has fewer than 20 bars or the trailing-window closes have zero variance
(in particular on a constant-close series); otherwise the regime and
reversion probability follow the fixed |z| lookup table — stated via the
equivalent squared comparisons zNum² vs a²·variance, std = √variance —
|z| > 2.5 → STRETCHED_EXTREME with probability 0.85, |z| > 2.0 →
STRETCHED_HIGH with 0.75, |z| > 1.5 → STRETCHED with 0.62, |z| > 1.0 →
NORMAL with 0.48, else COMPRESSED with 0.35. -/
theorem bell_curve_contract (df : List Row) (window : ℕ) :
    (df.length < 20 → analyzeBellCurve df window = none) ∧
    (bellVariance df window = 0 → analyzeBellCurve df window = none) ∧
    (∀ st, analyzeBellCurve df window = some st →
      st.variance = bellVariance df window ∧ st.zNum = bellZNum df window ∧
      (st.zNum ^ 2 > (25/4) * st.variance →
        st.regime = "STRETCHED_EXTREME" ∧ st.revProb = 85/100) ∧
      (st.zNum ^ 2 ≤ (25/4) * st.variance → st.zNum ^ 2 > 4 * st.variance →
        st.regime = "STRETCHED_HIGH" ∧ st.revProb = 75/100) ∧
      (st.zNum ^ 2 ≤ 4 * st.variance → st.zNum ^ 2 > (9/4) * st.variance →
        st.regime = "STRETCHED" ∧ st.revProb = 62/100) ∧
      (st.zNum ^ 2 ≤ (9/4) * st.variance → st.zNum ^ 2 > 1 * st.variance →
        st.regime = "NORMAL" ∧ st.revProb = 48/100) ∧
      (st.zNum ^ 2 ≤ 1 * st.variance →
        st.regime = "COMPRESSED" ∧ st.revProb = 35/100)) := by
  refine ⟨?_, ?_, ?_⟩
  · intro h
    rw [analyzeBellCurve, if_pos h]
  · intro h
    rw [analyzeBellCurve]
    by_cases h20 : df.length < 20
    · rw [if_pos h20]
    · rw [if_neg h20, if_pos h]
  · intro st hst
    rw [analyzeBellCurve] at hst
    have hvn := bellVariance_nonneg df window
    by_cases h20 : df.length < 20
    · rw [if_pos h20] at hst
      exact absurd hst (by simp)
    rw [if_neg h20] at hst
    by_cases hv : bellVariance df window = 0
    · rw [if_pos hv] at hst
      exact absurd hst (by simp)
    rw [if_neg hv] at hst
    by_cases h1 : bellZNum df window ^ 2 > (25/4) * bellVariance df window
    · rw [if_pos h1, Option.some_inj] at hst
      subst hst
      dsimp only [mkBellStats]
      refine ⟨rfl, rfl, fun _ => ⟨rfl, rfl⟩, ?_, ?_, ?_, ?_⟩
      · intro hc _; exfalso; linarith
      · intro hc _; exfalso; linarith
      · intro hc _; exfalso; linarith
      · intro hc; exfalso; linarith
    · rw [if_neg h1] at hst
      by_cases h2 : bellZNum df window ^ 2 > 4 * bellVariance df window
      · rw [if_pos h2, Option.some_inj] at hst
        subst hst
        dsimp only [mkBellStats]
        refine ⟨rfl, rfl, fun hc => absurd hc h1, fun _ _ => ⟨rfl, rfl⟩, ?_, ?_, ?_⟩
        · intro hc _; exfalso; linarith
        · intro hc _; exfalso; linarith
        · intro hc; exfalso; linarith
      · rw [if_neg h2] at hst
        by_cases h3 : bellZNum df window ^ 2 > (9/4) * bellVariance df window
        · rw [if_pos h3, Option.some_inj] at hst
          subst hst
          dsimp only [mkBellStats]
          refine ⟨rfl, rfl, fun hc => absurd hc h1, fun _ hc => absurd hc h2,
            fun _ _ => ⟨rfl, rfl⟩, ?_, ?_⟩
          · intro hc _; exfalso; linarith
          · intro hc; exfalso; linarith
        · rw [if_neg h3] at hst
          by_cases h4 : bellZNum df window ^ 2 > 1 * bellVariance df window
          · rw [if_pos h4, Option.some_inj] at hst
            subst hst
            dsimp only [mkBellStats]
            refine ⟨rfl, rfl, fun hc => absurd hc h1, fun _ hc => absurd hc h2,
              fun _ hc => absurd hc h3, fun _ _ => ⟨rfl, rfl⟩, ?_⟩
            intro hc; exfalso; linarith
          · rw [if_neg h4, Option.some_inj] at hst
            subst hst
            dsimp only [mkBellStats]
            exact ⟨rfl, rfl, fun hc => absurd hc h1, fun _ hc => absurd hc h2,
              fun _ hc => absurd hc h3, fun _ hc => absurd hc h4,
              fun _ => ⟨rfl, rfl⟩⟩

/-- Witness for C8 at a concrete frame: the 21-bar constant-close series
has zero variance, so the analyzer returns the empty result. -/
theorem bell_curve_contract_witness : analyzeBellCurve bcConstDf 60 = none :=
  (bell_curve_contract bcConstDf 60).2.1 (by decide)

/-! ### C10: pattern confidence range -/

lemma pyTrunc_nonneg {x : ℚ} (h : 0 ≤ x) : 0 ≤ pyTrunc x := by
  unfold pyTrunc
  rw [if_pos h]
  exact Int.floor_nonneg.mpr h

lemma pyTrunc_ge_neg19 {x : ℚ} (h : -20 < x) : -19 ≤ pyTrunc x := by
  unfold pyTrunc
  split
  next h0 =>
    have := Int.floor_nonneg.mpr h0
    omega
  next h0 =>
    have hc : (-20 : ℚ) < (⌈x⌉ : ℚ) := lt_of_lt_of_le h (Int.le_ceil x)
    have : (-20 : ℤ) < ⌈x⌉ := by exact_mod_cast hc
    omega

lemma longCandleConf_bounds (x : PatCtx) (h : 6/10 < cBodyPct x.c0) :
    40 ≤ longCandleConf x ∧ longCandleConf x ≤ 100 := by
  have ht : 0 ≤ pyTrunc ((cBodyPct x.c0 - 6/10) * 100) :=
    pyTrunc_nonneg (by linarith)
  unfold longCandleConf
  split <;> omega

lemma engulfConf_bounds (x : PatCtx) (h : 0 < cBody x.c0) :
    40 ≤ engulfConf x ∧ engulfConf x ≤ 100 := by
  have hd : (0 : ℚ) < max (cBody x.c1) (1/1000000000) :=
    lt_of_lt_of_le (by norm_num) (le_max_right _ _)
  have hr : 0 < cBody x.c0 / max (cBody x.c1) (1/1000000000) := div_pos h hd
  have ht : -19 ≤ pyTrunc ((cBody x.c0 / max (cBody x.c1) (1/1000000000) - 1) * 20) :=
    pyTrunc_ge_neg19 (by linarith)
  unfold engulfConf
  split <;> omega

lemma hammerConf_bounds (x : PatCtx) : 40 ≤ hammerConf x ∧ hammerConf x ≤ 100 := by
  unfold hammerConf
  split <;> split <;> omega

lemma shootingStarConf_bounds (x : PatCtx) :
    40 ≤ shootingStarConf x ∧ shootingStarConf x ≤ 100 := by
  unfold shootingStarConf
  split <;> split <;> omega

lemma starReversalConf_bounds (x : PatCtx) :
    40 ≤ starReversalConf x ∧ starReversalConf x ≤ 100 := by
  unfold starReversalConf
  split <;> omega

lemma conf_mem_ruleLongGreen {x : PatCtx} {p : Pattern} (h : p ∈ ruleLongGreen x) :
    40 ≤ p.confidence ∧ p.confidence ≤ 100 := by
  unfold ruleLongGreen at h
  split at h
  next hc =>
    rcases List.mem_singleton.mp h with rfl
    exact longCandleConf_bounds x hc.2.2
  next => exact absurd h (List.not_mem_nil p)

lemma conf_mem_ruleLongRed {x : PatCtx} {p : Pattern} (h : p ∈ ruleLongRed x) :
    40 ≤ p.confidence ∧ p.confidence ≤ 100 := by
  unfold ruleLongRed at h
  split at h
  next hc =>
    rcases List.mem_singleton.mp h with rfl
    exact longCandleConf_bounds x hc.2.2
  next => exact absurd h (List.not_mem_nil p)

lemma conf_mem_ruleHammer {x : PatCtx} {p : Pattern} (h : p ∈ ruleHammer x) :
    40 ≤ p.confidence ∧ p.confidence ≤ 100 := by
  unfold ruleHammer at h
  split at h
  next =>
    rcases List.mem_singleton.mp h with rfl
    exact hammerConf_bounds x
  next => exact absurd h (List.not_mem_nil p)

lemma conf_mem_ruleShootingStar {x : PatCtx} {p : Pattern}
    (h : p ∈ ruleShootingStar x) : 40 ≤ p.confidence ∧ p.confidence ≤ 100 := by
  unfold ruleShootingStar at h
  split at h
  next =>
    rcases List.mem_singleton.mp h with rfl
    exact shootingStarConf_bounds x
  next => exact absurd h (List.not_mem_nil p)

lemma conf_mem_ruleInvertedHammer {x : PatCtx} {p : Pattern}
    (h : p ∈ ruleInvertedHammer x) : 40 ≤ p.confidence ∧ p.confidence ≤ 100 := by
  unfold ruleInvertedHammer at h
  split at h
  next =>
    rcases List.mem_singleton.mp h with rfl
    dsimp only
    exact ⟨by decide, by decide⟩
  next => exact absurd h (List.not_mem_nil p)

lemma conf_mem_ruleBullishEngulfing {x : PatCtx} {p : Pattern}
    (h : p ∈ ruleBullishEngulfing x) : 40 ≤ p.confidence ∧ p.confidence ≤ 100 := by
  unfold ruleBullishEngulfing at h
  split at h
  next hc =>
    rcases List.mem_singleton.mp h with rfl
    exact engulfConf_bounds x (abs_pos.mpr (sub_ne_zero.mpr (ne_of_gt hc.2.1)))
  next => exact absurd h (List.not_mem_nil p)

lemma conf_mem_ruleBearishEngulfing {x : PatCtx} {p : Pattern}
    (h : p ∈ ruleBearishEngulfing x) : 40 ≤ p.confidence ∧ p.confidence ≤ 100 := by
  unfold ruleBearishEngulfing at h
  split at h
  next hc =>
    rcases List.mem_singleton.mp h with rfl
    exact engulfConf_bounds x (abs_pos.mpr (sub_ne_zero.mpr (ne_of_lt hc.2.1)))
  next => exact absurd h (List.not_mem_nil p)

lemma conf_mem_ruleMorningStar {x : PatCtx} {p : Pattern}
    (h : p ∈ ruleMorningStar x) : 40 ≤ p.confidence ∧ p.confidence ≤ 100 := by
  unfold ruleMorningStar at h
  split at h
  next =>
    rcases List.mem_singleton.mp h with rfl
    exact starReversalConf_bounds x
  next => exact absurd h (List.not_mem_nil p)

lemma conf_mem_ruleEveningStar {x : PatCtx} {p : Pattern}
    (h : p ∈ ruleEveningStar x) : 40 ≤ p.confidence ∧ p.confidence ≤ 100 := by
  unfold ruleEveningStar at h
  split at h
  next =>
    rcases List.mem_singleton.mp h with rfl
    exact starReversalConf_bounds x
  next => exact absurd h (List.not_mem_nil p)

lemma conf_mem_ruleDoji {x : PatCtx} {p : Pattern} (h : p ∈ ruleDoji x) :
    40 ≤ p.confidence ∧ p.confidence ≤ 100 := by
  unfold ruleDoji at h
  split at h
  next =>
    rcases List.mem_singleton.mp h with rfl
    dsimp only
    split <;> omega
  next => exact absurd h (List.not_mem_nil p)

lemma conf_mem_ruleThreeWhiteSoldiers {x : PatCtx} {p : Pattern}
    (h : p ∈ ruleThreeWhiteSoldiers x) : 40 ≤ p.confidence ∧ p.confidence ≤ 100 := by
  unfold ruleThreeWhiteSoldiers at h
  split at h
  next =>
    rcases List.mem_singleton.mp h with rfl
    dsimp only
    exact ⟨by decide, by decide⟩
  next => exact absurd h (List.not_mem_nil p)

lemma conf_mem_ruleThreeBlackCrows {x : PatCtx} {p : Pattern}
    (h : p ∈ ruleThreeBlackCrows x) : 40 ≤ p.confidence ∧ p.confidence ≤ 100 := by
  unfold ruleThreeBlackCrows at h
  split at h
  next =>
    rcases List.mem_singleton.mp h with rfl
    dsimp only
    exact ⟨by decide, by decide⟩
  next => exact absurd h (List.not_mem_nil p)

lemma conf_mem_ruleLongUpperShadow {x : PatCtx} {p : Pattern}
    (h : p ∈ ruleLongUpperShadow x) : 40 ≤ p.confidence ∧ p.confidence ≤ 100 := by
  unfold ruleLongUpperShadow at h
  split at h
  next =>
    rcases List.mem_singleton.mp h with rfl
    dsimp only
    exact ⟨by decide, by decide⟩
  next => exact absurd h (List.not_mem_nil p)

lemma conf_mem_ruleTweezerTop {x : PatCtx} {p : Pattern}
    (h : p ∈ ruleTweezerTop x) : 40 ≤ p.confidence ∧ p.confidence ≤ 100 := by
  unfold ruleTweezerTop at h
  split at h
  next =>
    rcases List.mem_singleton.mp h with rfl
    dsimp only
    exact ⟨by decide, by decide⟩
  next => exact absurd h (List.not_mem_nil p)

lemma conf_mem_ruleTweezerBottom {x : PatCtx} {p : Pattern}
    (h : p ∈ ruleTweezerBottom x) : 40 ≤ p.confidence ∧ p.confidence ≤ 100 := by
  unfold ruleTweezerBottom at h
  split at h
  next =>
    rcases List.mem_singleton.mp h with rfl
    dsimp only
    exact ⟨by decide, by decide⟩
  next => exact absurd h (List.not_mem_nil p)

/-- C10: every pattern returned by `detect_patterns_full` carries a
confidence in [40, 100] — each of the 15 rules floors at 40 (the neutral
doji) and every additive bonus is capped by `min(100, ...)`, so no rule
can emit a confidence below 40 or above 100 on any input frame. -/
theorem pattern_confidence_in_range (df : List Row) (p : Pattern)
    (h : p ∈ detectPatternsFull df) : 40 ≤ p.confidence ∧ p.confidence ≤ 100 := by
  unfold detectPatternsFull at h
  split at h
  next => exact absurd h (List.not_mem_nil p)
  next =>
    rw [mem_sortByKey] at h
    unfold allRules at h
    simp only [List.mem_append] at h
    rcases h with
      ((((((((((((((h | h) | h) | h) | h) | h) | h) | h) | h) | h) | h) | h) | h) | h) | h)
    exacts [conf_mem_ruleLongGreen h, conf_mem_ruleLongRed h,
      conf_mem_ruleHammer h, conf_mem_ruleShootingStar h,
      conf_mem_ruleInvertedHammer h, conf_mem_ruleBullishEngulfing h,
      conf_mem_ruleBearishEngulfing h, conf_mem_ruleMorningStar h,
      conf_mem_ruleEveningStar h, conf_mem_ruleDoji h,
      conf_mem_ruleThreeWhiteSoldiers h, conf_mem_ruleThreeBlackCrows h,
      conf_mem_ruleLongUpperShadow h, conf_mem_ruleTweezerTop h,
      conf_mem_ruleTweezerBottom h]

/-- Witness for the confidence-range theorem at a concrete input: on the
three-bar frame `dojiDf` the detector reports exactly the neutral doji at
the floor confidence 40, which satisfies the bounds. -/
theorem pattern_confidence_in_range_witness :
    dojiPat ∈ detectPatternsFull dojiDf ∧
      40 ≤ dojiPat.confidence ∧ dojiPat.confidence ≤ 100 :=
  ⟨by decide, pattern_confidence_in_range dojiDf dojiPat (by decide)⟩

end ThaiStock
